import Mathlib

/-!
Verification development for the `@profullstack/scanner` repository.

The JavaScript sources are shallowly embedded: pure computations become Lean
functions, JavaScript objects become structures with `Option` fields (a `none`
models an absent / `undefined` property), fallible steps become `Except` /
`Option` parameters, and the nondeterministic inputs of the renderers (the
wall clock and `Math.random`) become explicit arguments.
-/

namespace Scanner

/-- Models the JavaScript expression `o || d` for an optional string `o`:
`undefined`, `null` and the empty string are falsy and yield the default. -/
def jsOrS (o : Option String) (d : String) : String :=
  match o with
  | none => d
  | some s => if s = "" then d else s

/-- Models `o || d` for an optional list (JavaScript arrays, even empty ones,
are truthy, so a present array is always taken). -/
def jsOrL (o : Option (List String)) (d : List String) : List String :=
  match o with
  | none => d
  | some l => l

/-- Digit prefix of a character list (used by the `parseInt` model). -/
def digitsOf (cs : List Char) : List Char :=
  cs.takeWhile Char.isDigit

/-- Numeric value of a digit list. -/
def digitsVal (cs : List Char) : Nat :=
  cs.foldl (fun n c => n * 10 + (c.toNat - ('0').toNat)) 0

/-- JavaScript whitespace for `String.prototype.trim`. -/
def isJsSpace (c : Char) : Bool :=
  c = ' ' || c = '\t' || c = '\n' || c = '\r' || c.toNat = 11 || c.toNat = 12

/-- Models `s.trim()`. -/
def trimJS (s : String) : String :=
  String.mk (((s.data.dropWhile isJsSpace).reverse.dropWhile isJsSpace).reverse)

/-- Models `s.toLowerCase()` (ASCII, which is all the repository uses). -/
def toLowerJS (s : String) : String :=
  String.mk (s.data.map Char.toLower)

/-- Models `s.toUpperCase()` (ASCII). -/
def toUpperJS (s : String) : String :=
  String.mk (s.data.map Char.toUpper)

/-- Split a character list at a separator character. -/
def splitOnCharList (c : Char) : List Char → List (List Char)
  | [] => [[]]
  | x :: rest =>
      match splitOnCharList c rest with
      | [] => [[]]
      | h :: t => if x = c then [] :: h :: t else (x :: h) :: t

/-- Models `s.split('\n')`. -/
def splitLinesJS (s : String) : List String :=
  (splitOnCharList '\n' s.data).map String.mk

/-- Fuel-indexed global replacement on character lists (one fuel unit per
consumed character; the initial fuel `cs.length` always suffices for a
nonempty pattern). -/
def replaceFuel : Nat → List Char → List Char → List Char → List Char
  | 0, cs, _, _ => cs
  | _ + 1, [], _, _ => []
  | f + 1, c :: rest, pat, repl =>
      if pat.isPrefixOf (c :: rest) then
        repl ++ replaceFuel f ((c :: rest).drop pat.length) pat repl
      else c :: replaceFuel f rest pat repl

/-- Models `s.replace(/pat/g, repl)` for a nonempty literal pattern. -/
def replaceJS (s pat repl : String) : String :=
  if pat.data.isEmpty then s
  else String.mk (replaceFuel s.data.length s.data pat.data repl.data)

/-- Stable insertion of `x` before the first strictly smaller key. -/
def insertByDesc {α : Type} (key : α → Nat) (x : α) : List α → List α
  | [] => [x]
  | y :: ys => if key y < key x then x :: y :: ys else y :: insertByDesc key x ys

/-- Stable descending sort by a numeric key — the behaviour of the stable
`Array.prototype.sort` with the comparator `(a, b) => key(b) - key(a)`. -/
def sortByDesc {α : Type} (key : α → Nat) (l : List α) : List α :=
  l.foldl (fun acc x => insertByDesc key x acc) []

/-- Models JavaScript `parseInt(s)`: optional sign followed by a digit prefix;
`none` models `NaN` (no leading integer). Leading whitespace is trimmed. -/
def parseIntJS (s : String) : Option Int :=
  match (trimJS s).toList with
  | '-' :: rest =>
      let ds := digitsOf rest
      if ds.isEmpty then none else some (-(digitsVal ds : Int))
  | '+' :: rest =>
      let ds := digitsOf rest
      if ds.isEmpty then none else some ((digitsVal ds : Int))
  | cs =>
      let ds := digitsOf cs
      if ds.isEmpty then none else some ((digitsVal ds : Int))

/-- First index at which `pat` occurs as a substring of `cs`, if any. -/
def findSub (cs pat : List Char) : Option Nat :=
  match cs with
  | [] => if pat.isEmpty then some 0 else none
  | _ :: rest =>
      if pat.isPrefixOf cs then some 0
      else (findSub rest pat).map (· + 1)

/-- Models JavaScript `line.includes(pat)`. -/
def containsSub (s pat : String) : Bool :=
  (findSub s.toList pat.toList).isSome

/-- Models `s.padStart(n)` with spaces. -/
def padStart (s : String) (n : Nat) : String :=
  String.mk (List.replicate (n - s.length) ' ') ++ s

/-- Models `s.padEnd(n)` with spaces. -/
def padEnd (s : String) (n : Nat) : String :=
  s ++ String.mk (List.replicate (n - s.length) ' ')

/-- Models `c.repeat(n)` for a one-character string. -/
def repeatChar (c : Char) (n : Nat) : String :=
  String.mk (List.replicate n c)

/-- Models `Array.prototype.join(sep)`. -/
def joinSep (sep : String) (l : List String) : String :=
  match l with
  | [] => ""
  | a :: rest => rest.foldl (fun acc x => acc ++ sep ++ x) a

/-- Models `Array.prototype.join('')` (plain concatenation). -/
def joinAll (l : List String) : String :=
  l.foldl (fun acc x => acc ++ x) ""

/-- The five canonical severities of the data model. -/
def canonicalSeverities : List String :=
  ["critical", "high", "medium", "low", "info"]

/-- A loosely-typed JSON-ish value, used both for the fields of the canonical
vulnerability record whose type varies across tools and for building the JSON
report object. -/
inductive Json where
  | null : Json
  | bool (b : Bool) : Json
  | num (n : Int) : Json
  | str (s : String) : Json
  | arr (xs : List Json) : Json
  | obj (fields : List (String × Json)) : Json

/-- The canonical vulnerability record (`VulnerabilityRecord`).  Every field a
tool adapter or a caller may set; `none` models an absent property. -/
structure Vuln where
  id : Option String := none
  severity : Option String := none
  title : Option String := none
  description : Option String := none
  url : Option String := none
  method : Option String := none
  parameter : Option String := none
  param : Option String := none
  category : Option String := none
  source : Option String := none
  scanId : Option String := none
  osvdbId : Option String := none
  level : Option Json := none
  tags : Option (List String) := none
  reference : Option (List String) := none
  references : Option (List String) := none
  template : Option String := none
  matcher : Option String := none
  technologies : Option (List String) := none
  statusCode : Option Json := none
  contentType : Option String := none
  webServer : Option String := none
  responseTime : Option Json := none
  injectionType : Option String := none
  payload : Option String := none
  sqliType : Option String := none
  evidence : Option String := none
  solution : Option String := none
  cwe : Option String := none
  cvss : Option Json := none
  path : Option String := none
  line : Option Json := none

/-- A per-tool invocation result (`ToolResult`). -/
structure ToolResult where
  status : String
  tool : Option String := none
  outputFile : Option String := none
  vulnerabilities : List Vuln := []
  rawOutput : Option String := none
  errors : Option String := none
  error : Option String := none
  reason : Option String := none

/-! ## src/lib/tools.js — severity mapping -/

/-- `id >= n` for the possibly-`NaN` result of `parseInt`: every comparison
with `NaN` is false. -/
def niktoGE (o : Option Int) (n : Int) : Bool :=
  match o with
  | none => false
  | some i => n ≤ i

/-- `mapNiktoSeverity` (src/lib/tools.js:330-339): maps an OSVDB id string to
a severity.  `!osvdbId` catches an absent or empty attribute; `parseInt` of a
non-numeric string is `NaN`, whose comparisons are all false, so the function
falls through to `"info"`. -/
def mapNiktoSeverity (osvdbId : Option String) : String :=
  match osvdbId with
  | none => "info"
  | some s =>
      if s = "" then "info"
      else
        let id := parseIntJS s
        if niktoGE id 10000 then "high"
        else if niktoGE id 5000 then "medium"
        else if niktoGE id 1000 then "low"
        else "info"

/-- `mapWapitiSeverity` (src/lib/tools.js:605-612): a strict-equality switch
on the Wapiti numeric level; any other value (including an absent level)
falls to the default `"info"`. -/
def mapWapitiSeverity (level : Option Int) : String :=
  if level = some 3 then "high"
  else if level = some 2 then "medium"
  else if level = some 1 then "low"
  else "info"

/-! ## src/lib/tools.js — output parsing

Each parser takes the tool's result artifact as an explicit argument:
`none` models a missing output file (`existsSync` false), `some (.error ())`
models a file whose parse (`parseString` / `JSON.parse`) threw — the
surrounding `try`/`catch` turns both into an empty vulnerability list. -/

/-- One `<item>` element of the Nikto XML output (its `$` attributes). -/
structure NiktoItem where
  id : Option String := none
  method : Option String := none
  description : Option String := none
  uri : Option String := none
  osvdbid : Option String := none

/-- One `<scandetails>` element.  `xml2js` yields a single object or an array;
`parseNiktoResults` normalizes both to an array, which the list models. -/
structure NiktoScanDetail where
  item : Option (List NiktoItem) := none

/-- The parsed Nikto XML document. -/
structure NiktoXml where
  scandetails : Option (List NiktoScanDetail) := none

/-- The `niktoscan` root: `none` models a document without that root element. -/
structure NiktoDoc where
  niktoscan : Option NiktoXml := none

/-- `parseNiktoResults` (src/lib/tools.js:283-323): builds vulnerability
records from the `<item>` elements; a missing or malformed file yields `[]`. -/
def parseNiktoResults (file : Option (Except Unit NiktoDoc)) : List Vuln :=
  match file with
  | none => []
  | some (.error _) => []
  | some (.ok doc) =>
      match doc.niktoscan with
      | none => []
      | some scan =>
          match scan.scandetails with
          | none => []
          | some details =>
              details.foldl (fun acc sd =>
                acc ++ (match sd.item with
                | none => []
                | some items =>
                    items.map (fun it =>
                      { id := some (jsOrS it.id ("unknown"))
                        severity := some (mapNiktoSeverity it.osvdbid)
                        title := some (jsOrS it.method ("Unknown vulnerability"))
                        description := some (jsOrS it.description ("No description available"))
                        url := some (jsOrS it.uri (""))
                        method := some (jsOrS it.method ("GET"))
                        osvdbId := match it.osvdbid with
                          | none => none
                          | some s => if s = "" then none else some s
                        category := some ("Web Server Vulnerability") }))) []

/-- One record of the httpx NDJSON output. -/
structure HttpxData where
  url : Option String := none
  status_code : Option Json := none
  content_type : Option String := none
  webserver : Option String := none
  response_time : Option Json := none
  technologies : Option (List String) := none

/-- `parseHttpxResults` (src/lib/tools.js:456-494): one finding per parseable
NDJSON line; a line whose `JSON.parse` throws is skipped with a warning, and a
missing or unreadable file yields `[]`. -/
def parseHttpxResults (file : Option (List (Except Unit HttpxData))) : List Vuln :=
  match file with
  | none => []
  | some lines =>
      lines.foldl (fun acc l =>
        acc ++ (match l with
        | .error _ => []
        | .ok d =>
            [{ id := some ("httpx-finding")
               severity := some ("info")
               title := some ("HTTP Service: " ++ jsOrS d.url ("Unknown"))
               description := some ("HTTP service details for " ++ jsOrS d.url ("Unknown"))
               url := some (jsOrS d.url (""))
               method := some ("GET")
               category := some ("HTTP Service Discovery")
               technologies := some (jsOrL d.technologies [])
               statusCode := d.status_code
               contentType := d.content_type
               webServer := d.webserver
               responseTime := d.response_time }])) []

/-- The `http_request` object of a Wapiti vulnerability entry. -/
structure WapitiHttpRequest where
  url : Option String := none
  method : Option String := none

/-- One entry of a Wapiti vulnerability category. -/
structure WapitiVuln where
  wstg : Option String := none
  level : Option Int := none
  title : Option String := none
  description : Option String := none
  http_request : Option WapitiHttpRequest := none
  parameter : Option String := none

/-- The parsed Wapiti JSON document: `vulnerabilities` maps category names to
entry arrays (association list in `Object.keys` insertion order). -/
structure WapitiData where
  vulnerabilities : Option (List (String × List WapitiVuln)) := none

/-- `parseWapitiResults` (src/lib/tools.js:564-598): flattens the per-category
entries into canonical records; missing or malformed file yields `[]`.  The
carried `level` field is `vuln.level || 'Unknown'` (a JavaScript
number-or-string union, and level `0` is falsy). -/
def parseWapitiResults (file : Option (Except Unit WapitiData)) : List Vuln :=
  match file with
  | none => []
  | some (.error _) => []
  | some (.ok data) =>
      match data.vulnerabilities with
      | none => []
      | some cats =>
          cats.foldl (fun acc cv =>
            acc ++ cv.2.map (fun v =>
              { id := some (jsOrS v.wstg ("unknown"))
                severity := some (mapWapitiSeverity v.level)
                title := some (jsOrS v.title cv.1)
                description := some (jsOrS v.description ("No description available"))
                url := some (jsOrS (v.http_request.bind WapitiHttpRequest.url) (""))
                method := some (jsOrS (v.http_request.bind WapitiHttpRequest.method) ("GET"))
                parameter := some (jsOrS v.parameter (""))
                category := some cv.1
                level := some (match v.level with
                  | some n => if n = 0 then Json.str ("Unknown") else Json.num n
                  | none => Json.str ("Unknown")) })) []

/-- The `info` object of a Nuclei NDJSON record. -/
structure NucleiInfo where
  severity : Option String := none
  name : Option String := none
  description : Option String := none
  tags : Option (List String) := none
  reference : Option (List String) := none

/-- One Nuclei NDJSON record. -/
structure NucleiData where
  templateID : Option String := none
  info : Option NucleiInfo := none
  matched : Option String := none
  host : Option String := none
  type' : Option String := none
  matcher_name : Option String := none

/-- The canonical record built from one Nuclei NDJSON line
(src/lib/tools.js:700-713).  Note the severity is
`data.info?.severity || 'info'`: the tool-reported string is copied verbatim,
with no mapping onto the canonical enum. -/
def nucleiVulnOf (d : NucleiData) : Vuln :=
  { id := some (jsOrS d.templateID ("unknown"))
    severity := some (jsOrS (d.info.bind NucleiInfo.severity) ("info"))
    title := some (jsOrS (d.info.bind NucleiInfo.name) ("Unknown vulnerability"))
    description := some (jsOrS (d.info.bind NucleiInfo.description) ("No description available"))
    url := some (jsOrS d.matched (jsOrS d.host ("")))
    method := some (jsOrS d.type' ("Unknown"))
    tags := some (jsOrL (d.info.bind NucleiInfo.tags) [])
    reference := some (jsOrL (d.info.bind NucleiInfo.reference) [])
    category := some ("Template-based Vulnerability")
    template := d.templateID
    matcher := some (jsOrS d.matcher_name ("")) }

/-- `parseNucleiResults` (src/lib/tools.js:687-724): one record per parseable
NDJSON line, skipping malformed lines; a missing or unreadable file yields
`[]`. -/
def parseNucleiResults (file : Option (List (Except Unit NucleiData))) : List Vuln :=
  match file with
  | none => []
  | some lines =>
      lines.foldl (fun acc l =>
        acc ++ (match l with
        | .error _ => []
        | .ok d => [nucleiVulnOf d])) []

/-- Models `line.match(/Parameter: (.+?) \((.+?)\)/)` for the single-match
lines SQLMap emits: locate `"Parameter: "`, lazily capture up to the next
`" ("`, then up to the next `")"` (each capture at least one character). -/
def matchSqlmapParameter (line : String) : Option (String × String) :=
  match findSub line.toList ("Parameter: ").toList with
  | none => none
  | some i =>
      let rest := (line.toList.drop (i + 11))
      match findSub rest (" (").toList with
      | none => none
      | some j =>
          if j = 0 then none
          else
            let cap1 := String.mk (rest.take j)
            let rest2 := rest.drop (j + 2)
            match findSub rest2 [')'] with
            | none => none
            | some k =>
                if k = 0 then none
                else some (cap1, String.mk (rest2.take k))

/-- Models `line.match(/Label: (.+)/)`: greedy capture of everything after the
first occurrence of the label up to the end of the line (at least one
character). -/
def matchAfter (line lab : String) : Option String :=
  match findSub line.toList lab.toList with
  | none => none
  | some i =>
      let rest := line.toList.drop (i + lab.toList.length)
      if rest.isEmpty then none else some (String.mk rest)

/-- The fold step of `parseSqlmapResults` (src/lib/tools.js:825-862): a line
containing `Parameter:` flushes the current record and, if the regex matches,
starts a new one; `Type:`/`Title:`/`Payload:` lines update the current
record. -/
def sqlmapStep (acc : List Vuln × Option Vuln) (line : String) : List Vuln × Option Vuln :=
  let line := trimJS line
  if containsSub line ("Parameter:") then
    let flushed := acc.1 ++ acc.2.toList
    match matchSqlmapParameter line with
    | some m =>
        (flushed, some
          { id := some ("sql-injection")
            severity := some ("high")
            title := some ("SQL Injection")
            description := some ("SQL injection vulnerability found in parameter: " ++ m.1)
            parameter := some m.1
            sqliType := some m.2
            category := some ("SQL Injection")
            method := some ("Unknown") })
    | none => (flushed, acc.2)
  else
    match acc.2 with
    | none => acc
    | some cv =>
        if containsSub line ("Type:") then
          match matchAfter line ("Type: ") with
          | some t => (acc.1, some { cv with injectionType := some t })
          | none => acc
        else if containsSub line ("Title:") then
          match matchAfter line ("Title: ") with
          | some t => (acc.1, some { cv with title := some t })
          | none => acc
        else if containsSub line ("Payload:") then
          match matchAfter line ("Payload: ") with
          | some t => (acc.1, some { cv with payload := some t })
          | none => acc
        else acc

/-- `parseSqlmapResults` (src/lib/tools.js:810-869): scans
`stdout + stderr` line by line for the literal SQLMap markers and
reconstructs findings; the final current record is flushed at the end. -/
def parseSqlmapResults (stdout stderr : String) : List Vuln :=
  let lines := splitLinesJS (stdout ++ stderr)
  let r := lines.foldl sqlmapStep ([], none)
  r.1 ++ r.2.toList

/-! ## src/lib/tools.js — tool adapters

Each `run*` function takes the Process Runner's outcome
(`.error msg` models a rejected promise: timeout, nonzero exit or spawn
failure) and the tool's output artifact.  The adapter's own `try`/`catch`
turns any rejection into a tagged `status: "error"` result and never lets an
exception escape. -/

/-- `runNikto` (src/lib/tools.js:212-276). -/
def runNikto (outputFile : String) (execR : Except String (String × String))
    (file : Option (Except Unit NiktoDoc)) : ToolResult :=
  match execR with
  | .error e =>
      { status := "error", tool := some ("nikto"), error := some e, vulnerabilities := [] }
  | .ok (out, err) =>
      { status := "completed", tool := some ("nikto"), outputFile := some outputFile
        vulnerabilities := parseNiktoResults file
        rawOutput := some out, errors := some err }

/-- `runHttpx` (src/lib/tools.js:347-448).  The auxiliary Python probe runs in
its own `try`/`catch` and cannot change the outcome, so it is not modelled. -/
def runHttpx (outputFile : String) (execR : Except String (String × String))
    (file : Option (List (Except Unit HttpxData))) : ToolResult :=
  match execR with
  | .error e =>
      { status := "error", tool := some ("httpx"), error := some e, vulnerabilities := [] }
  | .ok (out, err) =>
      { status := "completed", tool := some ("httpx"), outputFile := some outputFile
        vulnerabilities := parseHttpxResults file
        rawOutput := some out, errors := some err }

/-- `runWapiti` (src/lib/tools.js:502-557). -/
def runWapiti (outputFile : String) (execR : Except String (String × String))
    (file : Option (Except Unit WapitiData)) : ToolResult :=
  match execR with
  | .error e =>
      { status := "error", tool := some ("wapiti"), error := some e, vulnerabilities := [] }
  | .ok (out, err) =>
      { status := "completed", tool := some ("wapiti"), outputFile := some outputFile
        vulnerabilities := parseWapitiResults file
        rawOutput := some out, errors := some err }

/-- `runNuclei` (src/lib/tools.js:620-680). -/
def runNuclei (outputFile : String) (execR : Except String (String × String))
    (file : Option (List (Except Unit NucleiData))) : ToolResult :=
  match execR with
  | .error e =>
      { status := "error", tool := some ("nuclei"), error := some e, vulnerabilities := [] }
  | .ok (out, err) =>
      { status := "completed", tool := some ("nuclei"), outputFile := some outputFile
        vulnerabilities := parseNucleiResults file
        rawOutput := some out, errors := some err }

/-- `runSqlmap` (src/lib/tools.js:732-802): parses stdout/stderr directly. -/
def runSqlmap (outputFile : String) (execR : Except String (String × String)) : ToolResult :=
  match execR with
  | .error e =>
      { status := "error", tool := some ("sqlmap"), error := some e, vulnerabilities := [] }
  | .ok (out, err) =>
      { status := "completed", tool := some ("sqlmap"), outputFile := some outputFile
        vulnerabilities := parseSqlmapResults out err
        rawOutput := some out, errors := some err }

/-! ## src/lib/tools.js — `execWithLogging` signal behaviour -/

/-- The runner's mutable flags: `isKilled` (set by any kill path) and
`childSignalled` (Node's `child.killed`, true once a signal has been sent). -/
structure RunnerState where
  isKilled : Bool := false
  childSignalled : Bool := false

/-- The timeout timer callback of `execWithLogging`
(src/lib/tools.js:87-96): if no kill has happened yet it sends `SIGKILL`
immediately — with no preceding `SIGTERM` and no grace period — and rejects
with the timeout message. -/
def timeoutFire (timeoutMs : Nat) (s : RunnerState) :
    RunnerState × List String × Option String :=
  if s.isKilled then (s, [], none)
  else
    ({ isKilled := true, childSignalled := true },
     ["SIGKILL"],
     some ("Command timed out after " ++ toString timeoutMs ++ "ms"))

/-- The immediate part of the SIGINT/SIGTERM handler
(src/lib/tools.js:36-45): on a live process it sends `SIGTERM` first. -/
def cancelImmediate (s : RunnerState) : RunnerState × List String :=
  if !s.isKilled && !s.childSignalled then
    ({ isKilled := true, childSignalled := true }, ["SIGTERM"])
  else (s, [])

/-- The delayed part of the SIGINT/SIGTERM handler
(src/lib/tools.js:47-54), scheduled 3000 ms later: a forced kill only if no
signal has been delivered yet. -/
def cancelDelayed (s : RunnerState) : List String :=
  if !s.childSignalled then ["SIGKILL"] else []

/-- The grace period (ms) between the cancellation handler's `SIGTERM` and its
scheduled forced kill (src/lib/tools.js:54). -/
def cancelGraceMs : Nat := 3000

/-! ## src/lib/scanner.js (part_005) — aggregation and summary -/

/-- The `summary` object of a `ScanResult` (part_005:106-113).  Its own keys
are, in insertion order, `total` and the five severities; `extraKeys` records
further own keys created by the summary loop through JavaScript's
bracket-lookup quirk (see `bumpSummary`). -/
structure Summary where
  total : Nat := 0
  critical : Nat := 0
  high : Nat := 0
  medium : Nat := 0
  low : Nat := 0
  info : Nat := 0
  extraKeys : List String := []

/-- The sum of the five severity buckets. -/
def bucketSum (s : Summary) : Nat :=
  s.critical + s.high + s.medium + s.low + s.info

/-- The histogram keys: the summary object's own keys other than `total`. -/
def histogramKeys (s : Summary) : List String :=
  canonicalSeverities ++ s.extraKeys

/-- The key the summary loop looks up:
`vuln.severity?.toLowerCase() || 'info'` (part_005:222). -/
def severityKey (v : Vuln) : String :=
  jsOrS (v.severity.map toLowerJS) ("info")

/-- One step of the summary loop (part_005:220-228).  The JavaScript test is
`scanResult.summary[severity] !== undefined`, which is true not only for the
five buckets but also for the own key `"total"` (double-counting it) and for
the all-lowercase keys JavaScript objects inherit from `Object.prototype`:
`summary["constructor"]++` stores an own `NaN` property, and
`summary["__proto__"]++` is a silently ignored prototype assignment; in both
of those cases no bucket is incremented. -/
def bumpSummary (s : Summary) (sev : String) : Summary :=
  let s := { s with total := s.total + 1 }
  if sev = "total" then { s with total := s.total + 1 }
  else if sev = "critical" then { s with critical := s.critical + 1 }
  else if sev = "high" then { s with high := s.high + 1 }
  else if sev = "medium" then { s with medium := s.medium + 1 }
  else if sev = "low" then { s with low := s.low + 1 }
  else if sev = "info" then { s with info := s.info + 1 }
  else if sev = "constructor" then
    { s with extraKeys := if s.extraKeys.contains ("constructor") then s.extraKeys
                          else s.extraKeys ++ ["constructor"] }
  else if sev = "__proto__" then s
  else { s with info := s.info + 1 }

/-- The whole summary loop (part_005:219-228). -/
def computeSummary (vulns : List Vuln) : Summary :=
  vulns.foldl (fun s v => bumpSummary s (severityKey v)) {}

/-- The per-tool aggregation step (part_005:196-203): each tool's
vulnerabilities are appended, stamped with the source tool id and the scan
id. -/
def aggregateVulns (scanId : String) (results : List (String × ToolResult)) : List Vuln :=
  results.foldl (fun acc tr =>
    acc ++ tr.2.vulnerabilities.map (fun v =>
      { v with source := some tr.1, scanId := some scanId })) []

/-- The observable outcome of one `scanTarget` call. -/
structure ScanOutcome where
  status : String
  results : List (String × ToolResult)
  vulnerabilities : List Vuln
  summary : Summary
  /-- Number of subprocesses spawned: one availability probe per requested
  tool (`checkToolAvailability`, src/lib/tools.js:170-204) plus one scan
  process per executed tool. -/
  spawned : Nat

/-- The tool-dispatch switch of `scanTarget` (part_005:174-192) together with
its per-tool `catch` (part_005:209-216): a known tool returns its adapter's
result, an unknown one throws `Unknown tool: ...`, which the catch turns into
a tagged error result. -/
def dispatchTool (adapters : String → Option ToolResult) (t : String) : ToolResult :=
  match adapters t with
  | some res => res
  | none => { status := "error", error := some ("Unknown tool: " ++ t), vulnerabilities := [] }

/-- `scanTarget` (part_005:73-289), modelled from target validation to the
finished result.  `targetValid` is the outcome of `validateTarget`;
`avail` the per-tool availability probe; `adapters` the per-tool run results
(output-directory creation, report writing and history persistence either
succeed or are caught and logged, so they do not affect the outcome). -/
def scanTarget (targetValid : Bool) (scanId : String) (tools : List String)
    (avail : String → Bool) (adapters : String → Option ToolResult) :
    Except String ScanOutcome :=
  if !targetValid then .error ("Invalid target")
  else
    let results := tools.map (fun t =>
      if !avail t then
        (t, ({ status := "skipped", reason := some ("Tool not available"),
               vulnerabilities := [] } : ToolResult))
      else (t, dispatchTool adapters t))
    let executed := (tools.filter (fun t => avail t)).length
    let vulns := aggregateVulns scanId results
    .ok { status := "completed"
          results := results
          vulnerabilities := vulns
          summary := computeSummary vulns
          spawned := tools.length + executed }

/-! ## Data model for the renderers -/

/-- `parseUrl`'s output (src/lib/utils.js:138-154). -/
structure ParsedUrl where
  protocol : String := ""
  hostname : String := ""
  port : String := ""
  pathname : String := ""
  search : String := ""
  hash : String := ""
  origin : String := ""
  href : String := ""

/-- A finished `ScanResult` (part_005:95-124) as the renderers consume it. -/
structure ScanResult where
  id : String
  target : String
  parsedUrl : Option ParsedUrl := none
  startTime : String := ""
  endTime : Option String := none
  duration : Option Nat := none
  tools : List String := []
  status : String := "completed"
  results : List (String × ToolResult) := []
  vulnerabilities : List Vuln := []
  summary : Summary := {}
  outputDir : Option String := none
  projectId : Option String := none
  scanProfile : Option String := none

/-- The wall clock at render time: `new Date().toISOString()` and
`new Date().toLocaleString()` of the same instant. -/
structure Clock where
  iso : String := ""
  locale : String := ""

/-- The render environment: `new Date(s).toLocaleString()` for a stored
timestamp string `s` (deterministic for a fixed locale and timezone). -/
structure Env where
  dateLocale : String → String

/-- `scanResult.duration || 0` (a `0` duration is falsy and also yields 0). -/
def durOrZero (r : ScanResult) : Nat :=
  match r.duration with
  | some d => d
  | none => 0

/-- `formatDuration` (src/lib/utils.js:174-198). -/
def formatDuration (seconds : Nat) : String :=
  if seconds < 60 then toString seconds ++ "s"
  else
    let minutes := seconds / 60
    let remSec := seconds % 60
    if minutes < 60 then
      if remSec > 0 then toString minutes ++ "m " ++ toString remSec ++ "s"
      else toString minutes ++ "m"
    else
      let hours := minutes / 60
      let remMin := minutes % 60
      toString hours ++ "h"
        ++ (if remMin > 0 then " " ++ toString remMin ++ "m" else "")
        ++ (if remSec > 0 then " " ++ toString remSec ++ "s" else "")

/-! ## src/lib/reports.js — JSON serialization (`JSON.stringify(v, null, 2)`) -/

/-- Lower-case hex digit. -/
def hexDigit (n : Nat) : Char :=
  if n < 10 then Char.ofNat (('0').toNat + n) else Char.ofNat (('a').toNat + (n - 10))

/-- `JSON.stringify`'s escaping of one character inside a string literal. -/
def jsonEscapeChar (c : Char) : String :=
  if c = '"' then "\\\""
  else if c = '\\' then "\\\\"
  else if c = '\n' then "\\n"
  else if c = '\r' then "\\r"
  else if c = '\t' then "\\t"
  else if c.toNat = 8 then "\\b"
  else if c.toNat = 12 then "\\f"
  else if c.toNat < 32 then
    "\\u00" ++ String.mk [hexDigit (c.toNat / 16), hexDigit (c.toNat % 16)]
  else String.mk [c]

/-- `JSON.stringify`'s escaping of a whole string. -/
def jsonEscape (s : String) : String :=
  joinAll (s.toList.map jsonEscapeChar)

/-- A JSON string literal. -/
def quoteStr (s : String) : String :=
  "\"" ++ jsonEscape s ++ "\""

mutual

/-- `JSON.stringify(v, null, 2)` at nesting indent `ind`. -/
def stringifyAt (ind : String) : Json → String
  | .null => "null"
  | .bool b => cond b ("true") ("false")
  | .num n => toString n
  | .str s => quoteStr s
  | .arr [] => "[]"
  | .arr (x :: xs) =>
      "[\n" ++ joinSep (",\n") (stringifyItems (ind ++ "  ") (x :: xs))
        ++ "\n" ++ ind ++ "]"
  | .obj [] => "\x7b\x7d"
  | .obj (f :: fs) =>
      "\x7b\n" ++ joinSep (",\n") (stringifyProps (ind ++ "  ") (f :: fs))
        ++ "\n" ++ ind ++ "\x7d"

/-- The serialized items of an array. -/
def stringifyItems (ind : String) : List Json → List String
  | [] => []
  | x :: xs => (ind ++ stringifyAt ind x) :: stringifyItems ind xs

/-- The serialized properties of an object. -/
def stringifyProps (ind : String) : List (String × Json) → List String
  | [] => []
  | (k, v) :: fs => (ind ++ quoteStr k ++ ": " ++ stringifyAt ind v) :: stringifyProps ind fs

end

/-- Top-level `JSON.stringify(v, null, 2)`. -/
def stringifyJson (v : Json) : String := stringifyAt ("") v

/-! ## src/lib/reports.js — JSON report (`generateJsonReport`, uiFormat=false)

The `uiFormat: true` branch (the UI-enriched schema) is outside every claim
and not modelled; the default path, which `generateReport`/`scanTarget`
use, is modelled in full. -/

/-- `x || null` for an optional string (`""` is falsy and becomes `null`). -/
def jsonOrNull (o : Option String) : Json :=
  match o with
  | none => .null
  | some s => if s = "" then .null else .str s

/-- JavaScript truthiness of a JSON value. -/
def jsTruthy : Json → Bool
  | .null => false
  | .bool b => b
  | .num n => !(n == 0)
  | .str s => !(s == "")
  | .arr _ => true
  | .obj _ => true

/-- `x || null` for a loosely typed field. -/
def jsonValOrNull (o : Option Json) : Json :=
  match o with
  | none => .null
  | some j => if jsTruthy j then j else .null

/-- `a || b || null` for two optional strings
(`vuln.parameter || vuln.param || null`). -/
def jsonOrNull2 (a b : Option String) : Json :=
  match a with
  | some s => if s = "" then jsonOrNull b else .str s
  | none => jsonOrNull b

/-- `vuln.reference || vuln.references || []` (arrays are always truthy). -/
def refsOf (v : Vuln) : List String :=
  match v.reference with
  | some l => l
  | none =>
      match v.references with
      | some l => l
      | none => []

/-- `getSeverityScore` (src/lib/reports.js:276-285). -/
def getSeverityScore (sev : Option String) : Nat :=
  let k := sev.map toLowerJS
  if k = some ("critical") then 5
  else if k = some ("high") then 4
  else if k = some ("medium") then 3
  else if k = some ("low") then 2
  else if k = some ("info") then 1
  else 0

/-- One entry of the report's `vulnerabilities` array
(src/lib/reports.js:202-227).  `rand i` is the `Math.random` suffix used when
`vuln.id` is falsy (`vuln-${Math.random().toString(36).substring(2, 11)}`). -/
def vulnJson (r : ScanResult) (rand : Nat → String) (i : Nat) (v : Vuln) : Json :=
  .obj [("id", .str (jsOrS v.id ("vuln-" ++ rand i))),
        ("title", .str (jsOrS v.title ("Unknown Vulnerability"))),
        ("severity", .str (jsOrS v.severity ("info"))),
        ("severity_score", .num (getSeverityScore v.severity)),
        ("description", .str (jsOrS v.description ("No description available"))),
        ("url", jsonOrNull v.url),
        ("method", jsonOrNull v.method),
        ("parameter", jsonOrNull2 v.parameter v.param),
        ("category", .str (jsOrS v.category ("General"))),
        ("source_tool", .str (jsOrS v.source ("unknown"))),
        ("discovered_at", .str r.startTime),
        ("scan_id", .str r.id),
        ("evidence", jsonOrNull v.evidence),
        ("solution", jsonOrNull v.solution),
        ("references", .arr ((refsOf v).map .str)),
        ("cwe_id", jsonOrNull v.cwe),
        ("cvss_score", jsonValOrNull v.cvss),
        ("tags", .arr ((jsOrL v.tags []).map .str)),
        ("location", .obj [("url", jsonOrNull v.url),
                           ("path", jsonOrNull v.path),
                           ("line", jsonValOrNull v.line),
                           ("parameter", jsonOrNull2 v.parameter v.param)])]

/-- One entry of `tool_results` (src/lib/reports.js:228-235).  With
`includeRawOutput` the spread adds `raw_output`, and `JSON.stringify` drops
the key again when the value is `undefined`. -/
def toolResultJson (includeRawOutput : Bool) (tr : String × ToolResult) : Json :=
  .obj ([("tool_name", .str tr.1),
         ("status", .str tr.2.status),
         ("vulnerability_count", .num tr.2.vulnerabilities.length),
         ("error_message", jsonOrNull tr.2.error),
         ("output_file", jsonOrNull tr.2.outputFile)]
    ++ (if includeRawOutput then
          match tr.2.rawOutput with
          | some s => [(("raw_output" : String), Json.str s)]
          | none => []
        else []))

/-- The report's `metadata` object (src/lib/reports.js:172-187). -/
def metadataJson (r : ScanResult) (clk : Clock) : Json :=
  .obj [("report_generated_at", .str clk.iso),
        ("scan_id", .str r.id),
        ("target", .str r.target),
        ("target_url", .str (jsOrS (r.parsedUrl.map ParsedUrl.href) r.target)),
        ("target_hostname", jsonOrNull (r.parsedUrl.map ParsedUrl.hostname)),
        ("scan_duration_seconds", match r.duration with
          | some d => .num d
          | none => .null),
        ("scan_duration_formatted", .str (formatDuration (durOrZero r))),
        ("tools_used", .arr (r.tools.map .str)),
        ("report_version", .str "2.0"),
        ("status", .str r.status),
        ("start_time", .str r.startTime),
        ("end_time", jsonOrNull r.endTime),
        ("project_id", jsonOrNull r.projectId),
        ("scan_profile", jsonOrNull r.scanProfile)]

/-- The report's `summary` object (src/lib/reports.js:188-201). -/
def summaryJson (r : ScanResult) : Json :=
  .obj [("total_vulnerabilities", .num r.summary.total),
        ("severity_counts", .obj [("critical", .num r.summary.critical),
                                  ("high", .num r.summary.high),
                                  ("medium", .num r.summary.medium),
                                  ("low", .num r.summary.low),
                                  ("info", .num r.summary.info)]),
        ("tools_count", .num r.tools.length),
        ("successful_tools", .num ((r.results.filter (fun tr => tr.2.status = "completed")).length)),
        ("failed_tools", .num ((r.results.filter (fun tr => tr.2.status = "error")).length)),
        ("skipped_tools", .num ((r.results.filter (fun tr => tr.2.status = "skipped")).length))]

/-- The whole report object (src/lib/reports.js:170-237). -/
def reportJson (r : ScanResult) (includeRawOutput : Bool) (clk : Clock)
    (rand : Nat → String) : Json :=
  .obj [("schema_version", .str "2.0"),
        ("metadata", metadataJson r clk),
        ("summary", summaryJson r),
        ("vulnerabilities", .arr (r.vulnerabilities.enum.map (fun p => vulnJson r rand p.1 p.2))),
        ("tool_results", .arr (r.results.map (toolResultJson includeRawOutput))),
        ("output_location", jsonOrNull r.outputDir)]

/-- `generateJsonReport` (src/lib/reports.js:166-241), default
`uiFormat: false` path: `JSON.stringify(report, null, 2)`. -/
def generateJsonReport (r : ScanResult) (includeRawOutput : Bool) (clk : Clock)
    (rand : Nat → String) : String :=
  stringifyJson (reportJson r includeRawOutput clk rand)

/-! ## src/lib/reports.js — CSV report -/

/-- The CSV header fields (src/lib/reports.js:624-635). -/
def csvHeaders : List String :=
  ["Vulnerability ID", "Title", "Severity", "Description", "URL",
   "Method", "Parameter", "Category", "Source Tool", "Scan ID"]

/-- One CSV data row (src/lib/reports.js:637-648).  Only the description
field has its embedded double quotes doubled
(`(vuln.description || '').replace(/"/g, '""')`). -/
def csvRow (r : ScanResult) (v : Vuln) : List String :=
  [jsOrS v.id (""),
   jsOrS v.title (""),
   jsOrS v.severity (""),
   replaceJS (jsOrS v.description ("")) ("\"") ("\"\""),
   jsOrS v.url (""),
   jsOrS v.method (""),
   jsOrS v.parameter (jsOrS v.param ("")),
   jsOrS v.category (""),
   jsOrS v.source (""),
   r.id]

/-- `generateCsvReport` (src/lib/reports.js:623-656): a quoted header row and
one quoted row per vulnerability, joined with newlines. -/
def generateCsvReport (r : ScanResult) : String :=
  joinSep ("\n")
    ((joinSep (",") (csvHeaders.map (fun h => "\"" ++ h ++ "\"")))
      :: (r.vulnerabilities.map (csvRow r)).map (fun row =>
            joinSep (",") (row.map (fun c => "\"" ++ c ++ "\""))))

/-! ## src/lib/reports.js — XML report -/

/-- A single-apostrophe string (kept out of literals). -/
def apos : String := String.mk [Char.ofNat 39]

/-- `escapeXml` (src/lib/reports.js:664-671). -/
def escapeXml (s : String) : String :=
  let s1 := replaceJS s ("&") ("&amp;")
  let s2 := replaceJS s1 ("<") ("&lt;")
  let s3 := replaceJS s2 (">") ("&gt;")
  let s4 := replaceJS s3 ("\"") ("&quot;")
  replaceJS s4 apos ("&#39;")

/-- One `<vulnerability>` element (src/lib/reports.js:699-710). -/
def xmlVulnElem (v : Vuln) : String :=
  "\n        <vulnerability>\n            <id>" ++ escapeXml (jsOrS v.id (""))
    ++ "</id>\n            <title>" ++ escapeXml (jsOrS v.title (""))
    ++ "</title>\n            <severity>" ++ escapeXml (jsOrS v.severity (""))
    ++ "</severity>\n            <description>" ++ escapeXml (jsOrS v.description (""))
    ++ "</description>\n            <url>" ++ escapeXml (jsOrS v.url (""))
    ++ "</url>\n            <method>" ++ escapeXml (jsOrS v.method (""))
    ++ "</method>\n            <parameter>" ++ escapeXml (jsOrS v.parameter (jsOrS v.param ("")))
    ++ "</parameter>\n            <category>" ++ escapeXml (jsOrS v.category (""))
    ++ "</category>\n            <source>" ++ escapeXml (jsOrS v.source (""))
    ++ "</source>\n        </vulnerability>"

/-- The XML report text before the `reportGeneratedAt` timestamp
(src/lib/reports.js:673-682). -/
def xmlHead (r : ScanResult) : String :=
  "<?xml version=\"1.0\" encoding=\"UTF-8\"?>\n<scanReport>\n    <metadata>\n        <scanId>"
    ++ escapeXml r.id
    ++ "</scanId>\n        <target>" ++ escapeXml r.target
    ++ "</target>\n        <startTime>" ++ escapeXml r.startTime
    ++ "</startTime>\n        <endTime>" ++ escapeXml (jsOrS r.endTime (""))
    ++ "</endTime>\n        <duration>" ++ toString (durOrZero r)
    ++ "</duration>\n        <status>" ++ escapeXml r.status
    ++ "</status>\n        <reportGeneratedAt>"

/-- The XML report text after the timestamp (src/lib/reports.js:682-712). -/
def xmlTail (r : ScanResult) : String :=
  "</reportGeneratedAt>\n    </metadata>\n    \n    <summary>\n        <totalVulnerabilities>"
    ++ toString r.summary.total
    ++ "</totalVulnerabilities>\n        <critical>" ++ toString r.summary.critical
    ++ "</critical>\n        <high>" ++ toString r.summary.high
    ++ "</high>\n        <medium>" ++ toString r.summary.medium
    ++ "</medium>\n        <low>" ++ toString r.summary.low
    ++ "</low>\n        <info>" ++ toString r.summary.info
    ++ "</info>\n    </summary>\n    \n    <tools>\n        "
    ++ joinSep ("\n        ")
         (r.tools.map (fun t => "<tool>" ++ escapeXml t ++ "</tool>"))
    ++ "\n    </tools>\n    \n    <vulnerabilities>\n        "
    ++ joinSep ("\n        ") (r.vulnerabilities.map xmlVulnElem)
    ++ "\n    </vulnerabilities>\n</scanReport>"

/-- `generateXmlReport` (src/lib/reports.js:663-712); the render-time
timestamp `escapeXml(new Date().toISOString())` sits between head and tail. -/
def generateXmlReport (r : ScanResult) (clk : Clock) : String :=
  xmlHead r ++ escapeXml clk.iso ++ xmlTail r

/-! ## src/lib/reports.js — Markdown report -/

/-- `results[tool]` property lookup on the results object. -/
def lookupTool (rs : List (String × ToolResult)) (t : String) : Option ToolResult :=
  match rs with
  | [] => none
  | kv :: rest => if kv.1 = t then some kv.2 else lookupTool rest t

/-- `severityEmojis[vuln.severity] || '⚪'` (src/lib/reports.js:721-727,756):
the lookup uses the raw severity string. -/
def mdEmoji (sev : Option String) : String :=
  if sev = some ("critical") then "🔴"
  else if sev = some ("high") then "🟠"
  else if sev = some ("medium") then "🟡"
  else if sev = some ("low") then "🔵"
  else if sev = some ("info") then "⚪"
  else "⚪"

/-- One numbered vulnerability section (src/lib/reports.js:755-771). -/
def mdVulnSection (p : Nat × Vuln) : String :=
  "\n### " ++ toString (p.1 + 1) ++ ". " ++ jsOrS p.2.title ("Unknown Vulnerability")
    ++ " " ++ mdEmoji p.2.severity
    ++ "\n\n**Severity:** " ++ jsOrS (p.2.severity.map toUpperJS) ("UNKNOWN")
    ++ "  \n**Source:** " ++ jsOrS p.2.source ("Unknown")
    ++ "  \n**Category:** " ++ jsOrS p.2.category ("N/A")
    ++ "\n\n**Description:**  \n" ++ jsOrS p.2.description ("No description available")
    ++ "\n\n**Details:**\n- **URL:** " ++ jsOrS p.2.url ("N/A")
    ++ "\n- **Method:** " ++ jsOrS p.2.method ("N/A")
    ++ "\n- **Parameter:** " ++ jsOrS p.2.parameter (jsOrS p.2.param ("N/A"))
    ++ "\n\n---\n"

/-- The Markdown report text before the footer timestamp
(src/lib/reports.js:729-778). -/
def mdHead (r : ScanResult) (env : Env) : String :=
  "# 🛡️ Security Scan Report\n\n**Target:** " ++ r.target
    ++ "  \n**Scan ID:** " ++ r.id
    ++ "  \n**Status:** " ++ r.status
    ++ "  \n**Duration:** " ++ formatDuration (durOrZero r)
    ++ "  \n**Completed:** " ++ env.dateLocale (jsOrS r.endTime r.startTime)
    ++ "\n\n## 📊 Summary\n\n| Metric | Value |\n|--------|-------|\n| Total Vulnerabilities | "
    ++ toString r.summary.total
    ++ " |\n| Critical | 🔴 " ++ toString r.summary.critical
    ++ " |\n| High | 🟠 " ++ toString r.summary.high
    ++ " |\n| Medium | 🟡 " ++ toString r.summary.medium
    ++ " |\n| Low | 🔵 " ++ toString r.summary.low
    ++ " |\n| Info | ⚪ " ++ toString r.summary.info
    ++ " |\n\n## 🔧 Tools Used\n\n"
    ++ joinSep ("\n") (r.tools.map (fun tool =>
         "- **" ++ toUpperJS tool ++ "**: "
           ++ jsOrS ((lookupTool r.results tool).map ToolResult.status) ("unknown")))
    ++ "\n\n"
    ++ (if r.vulnerabilities.length > 0 then
          "\n## 🚨 Vulnerabilities\n\n"
            ++ joinSep ("\n") (r.vulnerabilities.enum.map mdVulnSection)
            ++ "\n"
        else
          "\n## ✅ No Vulnerabilities Found\n\nGreat! No security vulnerabilities were detected during this scan.\n")
    ++ "\n\n---\n*Report generated by @profullstack/scanner on "

/-- `generateMarkdownReport` (src/lib/reports.js:720-781); the render-time
timestamp `new Date().toLocaleString()` sits before the closing `*`. -/
def generateMarkdownReport (r : ScanResult) (env : Env) (clk : Clock) : String :=
  mdHead r env ++ clk.locale ++ "*\n"

/-! ## src/lib/reports.js — HTML report (`generateHtmlReport`, 352-616)

The template literal is transcribed as a concatenation of its static
segments (`htmlSeg1` …) and interpolated expressions, in source order.
The computed-but-unused `vulnerabilitiesByTool` grouping (355-361) has no
effect on the output and is not modelled. -/

/-- `severityColors[key] || '#6c757d'` (src/lib/reports.js:363-369). -/
def severityColorJs (sev : Option String) : String :=
  if sev = some ("critical") then "#dc3545"
  else if sev = some ("high") then "#fd7e14"
  else if sev = some ("medium") then "#ffc107"
  else if sev = some ("low") then "#17a2b8"
  else if sev = some ("info") then "#6c757d"
  else "#6c757d"

/-- `Object.entries(scanResult.summary)` without `total`
(src/lib/reports.js:552-553): the five buckets in insertion order, then any
extra own keys (whose value, a `NaN` left by the summary quirk, renders as
`"NaN"`). -/
def summaryEntries (s : Summary) : List (String × String) :=
  [("critical", toString s.critical), ("high", toString s.high),
   ("medium", toString s.medium), ("low", toString s.low),
   ("info", toString s.info)]
    ++ s.extraKeys.map (fun k => (k, ("NaN" : String)))

/-- One severity badge (src/lib/reports.js:555-557). -/
def htmlBadge (e : String × String) : String :=
  "<div class=\"severity-badge\" style=\"background-color: "
    ++ severityColorJs (some e.1)
    ++ "\">\n                        " ++ toUpperJS e.1 ++ ": " ++ e.2
    ++ "\n                    </div>"

/-- One per-tool status row (src/lib/reports.js:563-568). -/
def htmlToolRow (tr : String × ToolResult) : String :=
  "\n                    <div style=\"margin: 10px 0; display: flex; justify-content: space-between; align-items: center;\">\n                        <strong>"
    ++ toUpperJS tr.1
    ++ "</strong>\n                        <span class=\"tool-status status-"
    ++ tr.2.status ++ "\">" ++ tr.2.status
    ++ "</span>\n                    </div>\n                "

/-- One vulnerability card (src/lib/reports.js:574-604).  Every interpolated
string (title, description, URL, …) is inserted verbatim — no escaping. -/
def htmlVulnCard (v : Vuln) : String :=
  "\n                    <div class=\"vulnerability-card\">\n                        <div class=\"vulnerability-header\">\n                            <div class=\"vulnerability-title\">"
    ++ jsOrS v.title ("Unknown Vulnerability")
    ++ "</div>\n                            <div class=\"severity-badge\" style=\"background-color: "
    ++ severityColorJs v.severity
    ++ "\">\n                                "
    ++ jsOrS (v.severity.map toUpperJS) ("UNKNOWN")
    ++ "\n                            </div>\n                        </div>\n                        <div class=\"vulnerability-body\">\n                            <p>"
    ++ jsOrS v.description ("No description available")
    ++ "</p>\n                            <div class=\"vulnerability-meta\">\n                                <div class=\"meta-item\">\n                                    <div class=\"meta-label\">Source Tool</div>\n                                    <div class=\"meta-value\">"
    ++ jsOrS v.source ("Unknown")
    ++ "</div>\n                                </div>\n                                <div class=\"meta-item\">\n                                    <div class=\"meta-label\">URL</div>\n                                    <div class=\"meta-value\">"
    ++ jsOrS v.url ("N/A")
    ++ "</div>\n                                </div>\n                                <div class=\"meta-item\">\n                                    <div class=\"meta-label\">Method</div>\n                                    <div class=\"meta-value\">"
    ++ jsOrS v.method ("N/A")
    ++ "</div>\n                                </div>\n                                <div class=\"meta-item\">\n                                    <div class=\"meta-label\">Category</div>\n                                    <div class=\"meta-value\">"
    ++ jsOrS v.category ("N/A")
    ++ "</div>\n                                </div>\n                            </div>\n                        </div>\n                    </div>\n                "

/-- The vulnerabilities section or the no-vulnerabilities block
(src/lib/reports.js:571-606). -/
def htmlVulnSection (r : ScanResult) : String :=
  if r.vulnerabilities.length > 0 then
    "\n            <div class=\"vulnerability-section\">\n                <h2>🚨 Vulnerabilities Found</h2>\n                "
      ++ joinAll (r.vulnerabilities.map htmlVulnCard)
      ++ "\n            </div>\n            "
  else
    "<div class=\"vulnerability-section\"><h2>✅ No Vulnerabilities Found</h2><p>Great! No security vulnerabilities were detected during this scan.</p></div>"

/-- The document head up to the `<title>` target (src/lib/reports.js:371-376). -/
def htmlSeg1 : String :=
  "<!DOCTYPE html>\n<html lang=\"en\">\n<head>\n    <meta charset=\"UTF-8\">\n    <meta name=\"viewport\" content=\"width=device-width, initial-scale=1.0\">\n    <title>Security Scan Report - "

/-- The style block and header up to the `Target:` interpolation
(src/lib/reports.js:376-527). -/
def htmlSeg2 : String :=
  "</title>\n    <style>\n        body \x7b\n            font-family: -apple-system, BlinkMacSystemFont, " ++ apos ++ "Segoe UI" ++ apos ++ ", Roboto, sans-serif;\n            line-height: 1.6;\n            margin: 0;\n            padding: 20px;\n            background-color: #f8f9fa;\n        \x7d\n        .container \x7b\n            max-width: 1200px;\n            margin: 0 auto;\n            background: white;\n            border-radius: 8px;\n            box-shadow: 0 2px 10px rgba(0,0,0,0.1);\n            overflow: hidden;\n        \x7d\n        .header \x7b\n            background: linear-gradient(135deg, #667eea 0%, #764ba2 100%);\n            color: white;\n            padding: 30px;\n            text-align: center;\n        \x7d\n        .header h1 \x7b\n            margin: 0;\n            font-size: 2.5em;\n        \x7d\n        .header p \x7b\n            margin: 10px 0 0 0;\n            opacity: 0.9;\n        \x7d\n        .content \x7b\n            padding: 30px;\n        \x7d\n        .summary-grid \x7b\n            display: grid;\n            grid-template-columns: repeat(auto-fit, minmax(200px, 1fr));\n            gap: 20px;\n            margin-bottom: 30px;\n        \x7d\n        .summary-card \x7b\n            background: #f8f9fa;\n            padding: 20px;\n            border-radius: 8px;\n            text-align: center;\n            border-left: 4px solid #007bff;\n        \x7d\n        .summary-card h3 \x7b\n            margin: 0 0 10px 0;\n            color: #495057;\n        \x7d\n        .summary-card .value \x7b\n            font-size: 2em;\n            font-weight: bold;\n            color: #007bff;\n        \x7d\n        .severity-breakdown \x7b\n            display: flex;\n            gap: 15px;\n            margin: 20px 0;\n            flex-wrap: wrap;\n        \x7d\n        .severity-badge \x7b\n            padding: 8px 16px;\n            border-radius: 20px;\n            color: white;\n            font-weight: bold;\n            text-align: center;\n            min-width: 60px;\n        \x7d\n        .vulnerability-section \x7b\n            margin: 30px 0;\n        \x7d\n        .vulnerability-section h2 \x7b\n            color: #495057;\n            border-bottom: 2px solid #e9ecef;\n            padding-bottom: 10px;\n        \x7d\n        .vulnerability-card \x7b\n            background: white;\n            border: 1px solid #e9ecef;\n            border-radius: 8px;\n            margin: 15px 0;\n            overflow: hidden;\n        \x7d\n        .vulnerability-header \x7b\n            padding: 15px 20px;\n            background: #f8f9fa;\n            border-bottom: 1px solid #e9ecef;\n            display: flex;\n            justify-content: space-between;\n            align-items: center;\n        \x7d\n        .vulnerability-title \x7b\n            font-weight: bold;\n            color: #495057;\n        \x7d\n        .vulnerability-body \x7b\n            padding: 20px;\n        \x7d\n        .vulnerability-meta \x7b\n            display: grid;\n            grid-template-columns: repeat(auto-fit, minmax(200px, 1fr));\n            gap: 15px;\n            margin-top: 15px;\n            padding-top: 15px;\n            border-top: 1px solid #e9ecef;\n        \x7d\n        .meta-item \x7b\n            display: flex;\n            flex-direction: column;\n        \x7d\n        .meta-label \x7b\n            font-weight: bold;\n            color: #6c757d;\n            font-size: 0.9em;\n            margin-bottom: 5px;\n        \x7d\n        .meta-value \x7b\n            color: #495057;\n            word-break: break-all;\n        \x7d\n        .tool-section \x7b\n            margin: 30px 0;\n            padding: 20px;\n            background: #f8f9fa;\n            border-radius: 8px;\n        \x7d\n        .tool-status \x7b\n            display: inline-block;\n            padding: 4px 12px;\n            border-radius: 12px;\n            font-size: 0.9em;\n            font-weight: bold;\n        \x7d\n        .status-completed \x7b background: #d4edda; color: #155724; \x7d\n        .status-error \x7b background: #f8d7da; color: #721c24; \x7d\n        .status-skipped \x7b background: #fff3cd; color: #856404; \x7d\n        .footer \x7b\n            background: #f8f9fa;\n            padding: 20px;\n            text-align: center;\n            color: #6c757d;\n            border-top: 1px solid #e9ecef;\n        \x7d\n    </style>\n</head>\n<body>\n    <div class=\"container\">\n        <div class=\"header\">\n            <h1>🛡️ Security Scan Report</h1>\n            <p>Target: <strong>"

/-- Between the target and the completion date (src/lib/reports.js:527-528). -/
def htmlSeg3 : String :=
  "</strong></p>\n            <p>Scan completed on "

/-- Up to the total-vulnerabilities value (src/lib/reports.js:528-535). -/
def htmlSeg4 : String :=
  "</p>\n        </div>\n        \n        <div class=\"content\">\n            <div class=\"summary-grid\">\n                <div class=\"summary-card\">\n                    <h3>Total Vulnerabilities</h3>\n                    <div class=\"value\">"

/-- Up to the scan-duration value (src/lib/reports.js:535-539). -/
def htmlSeg5 : String :=
  "</div>\n                </div>\n                <div class=\"summary-card\">\n                    <h3>Scan Duration</h3>\n                    <div class=\"value\">"

/-- Up to the tools-used value (src/lib/reports.js:539-543). -/
def htmlSeg6 : String :=
  "</div>\n                </div>\n                <div class=\"summary-card\">\n                    <h3>Tools Used</h3>\n                    <div class=\"value\">"

/-- Up to the status color ternary (src/lib/reports.js:543-547). -/
def htmlSeg7 : String :=
  "</div>\n                </div>\n                <div class=\"summary-card\">\n                    <h3>Status</h3>\n                    <div class=\"value\" style=\"color: "

/-- Between the status color and the status text (src/lib/reports.js:547). -/
def htmlSeg8 : String :=
  "\">"

/-- Up to the severity badges (src/lib/reports.js:547-552). -/
def htmlSeg9 : String :=
  "</div>\n                </div>\n            </div>\n            \n            <div class=\"severity-breakdown\">\n                "

/-- Up to the per-tool rows (src/lib/reports.js:558-563). -/
def htmlSeg10 : String :=
  "\n            </div>\n            \n            <div class=\"tool-section\">\n                <h2>🔧 Tool Results</h2>\n                "

/-- Up to the vulnerabilities section (src/lib/reports.js:568-571). -/
def htmlSeg11 : String :=
  "\n            </div>\n            \n            "

/-- Up to the footer timestamp (src/lib/reports.js:606-610). -/
def htmlSeg12 : String :=
  "\n        </div>\n        \n        <div class=\"footer\">\n            <p>Report generated by @profullstack/scanner on "

/-- Between the footer timestamp and the scan id (src/lib/reports.js:610-611). -/
def htmlSeg13 : String :=
  "</p>\n            <p>Scan ID: "

/-- The closing markup (src/lib/reports.js:611-615). -/
def htmlSeg14 : String :=
  "</p>\n        </div>\n    </div>\n</body>\n</html>"

/-- The HTML document up to (and excluding) the footer render-time timestamp
`new Date().toLocaleString()`. -/
def htmlHead (r : ScanResult) (env : Env) : String :=
  htmlSeg1 ++ r.target
    ++ htmlSeg2 ++ r.target
    ++ htmlSeg3 ++ env.dateLocale (jsOrS r.endTime r.startTime)
    ++ htmlSeg4 ++ toString r.summary.total
    ++ htmlSeg5 ++ formatDuration (durOrZero r)
    ++ htmlSeg6 ++ toString r.tools.length
    ++ htmlSeg7 ++ (if r.status = "completed" then "#28a745" else "#dc3545")
    ++ htmlSeg8 ++ toUpperJS r.status
    ++ htmlSeg9 ++ joinAll ((summaryEntries r.summary).map htmlBadge)
    ++ htmlSeg10 ++ joinAll (r.results.map htmlToolRow)
    ++ htmlSeg11 ++ htmlVulnSection r
    ++ htmlSeg12

/-- `generateHtmlReport` (src/lib/reports.js:352-616). -/
def generateHtmlReport (r : ScanResult) (env : Env) (clk : Clock) : String :=
  htmlHead r env ++ clk.locale ++ htmlSeg13 ++ r.id ++ htmlSeg14

/-! ## src/lib/reports.js — text report (`generateTextReport`, 788-996) -/

/-- Truthiness of an optional string property. -/
def truthyS (o : Option String) : Bool :=
  match o with
  | none => false
  | some s => !(s == "")

/-- The ANSI color table of the text renderer (`colors[key] || ''`,
src/lib/reports.js:796-809). -/
def ansiColor (k : String) : String :=
  if k = "critical" then "\x1b[41m\x1b[37m"
  else if k = "high" then "\x1b[31m"
  else if k = "medium" then "\x1b[33m"
  else if k = "low" then "\x1b[36m"
  else if k = "info" then "\x1b[37m"
  else if k = "success" then "\x1b[32m"
  else if k = "warning" then "\x1b[33m"
  else if k = "error" then "\x1b[31m"
  else if k = "bold" then "\x1b[1m"
  else if k = "reset" then "\x1b[0m"
  else ""

/-- `colorize` (src/lib/reports.js:793-810). -/
def colorize (co : Bool) (text sev : String) : String :=
  if !co then text else ansiColor sev ++ text ++ "\x1b[0m"

/-- `sectionHeader` (src/lib/reports.js:813-816): the two pushed lines. -/
def sectionHeader (co : Bool) (title : String) : List String :=
  [colorize co (toUpperJS title) ("bold"),
   colorize co (repeatChar '-' title.length) ("bold")]

/-- `createBar` (src/lib/reports.js:850-857).  The floating-point
`Math.floor(Math.min(count / total, 1) * width)` is modelled as the exact
rational floor, which agrees on these small integer inputs. -/
def createBar (count total : Nat) (width : Nat := 40) : String :=
  if total = 0 then "[" ++ repeatChar ' ' width ++ "] 0%"
  else
    let pctNum := min count total
    let filled := pctNum * width / total
    let percent := pctNum * 100 / total
    "[" ++ repeatChar '█' filled ++ repeatChar '░' (width - filled) ++ "] "
      ++ toString percent ++ "%"

/-- `severityOrder` of the text renderer's sort comparator
(src/lib/reports.js:915-916): `severityOrder[sev?.toLowerCase()] || 0`. -/
def textSeverityScore (sev : Option String) : Nat :=
  let k := sev.map toLowerJS
  if k = some ("critical") then 5
  else if k = some ("high") then 4
  else if k = some ("medium") then 3
  else if k = some ("low") then 2
  else if k = some ("info") then 1
  else 0

mutual

/-- JavaScript template-literal display of a loosely typed value
(`${vuln.cvss}`): numbers and strings verbatim, arrays comma-joined. -/
def jsDisplay : Json → String
  | .null => "null"
  | .bool b => cond b ("true") ("false")
  | .num n => toString n
  | .str s => s
  | .arr xs => joinSep (",") (jsDisplayList xs)
  | .obj _ => "[object Object]"

/-- Display of a list of values. -/
def jsDisplayList : List Json → List String
  | [] => []
  | x :: xs => jsDisplay x :: jsDisplayList xs

end

/-- The detailed-mode extras for one vulnerability
(src/lib/reports.js:946-979). -/
def textVulnDetails (v : Vuln) : List String :=
  [""]
    ++ (if truthyS v.evidence then [("Evidence:" : String), jsOrS v.evidence (""), ""] else [])
    ++ (if truthyS v.solution then [("Solution:" : String), jsOrS v.solution (""), ""] else [])
    ++ (if v.reference.isSome || v.references.isSome then
          let refs := match v.references with
            | some l => l
            | none => match v.reference with
              | some l => l
              | none => []
          if refs.length > 0 then
            [("References:" : String)] ++ refs.map (fun ref => "- " ++ ref) ++ [""]
          else []
        else [])
    ++ (if truthyS v.cwe then [("CWE: " ++ jsOrS v.cwe (""))] else [])
    ++ (match v.cvss with
        | some j => if jsTruthy j then [("CVSS Score: " ++ jsDisplay j)] else []
        | none => [])

/-- The lines for one vulnerability of the details section
(src/lib/reports.js:919-982). -/
def textVulnLines (co detailed : Bool) (p : Nat × Vuln) : List String :=
  let sev := jsOrS (p.2.severity.map toLowerJS) ("info")
  [colorize co ("[" ++ toUpperJS sev ++ "] " ++ toString (p.1 + 1) ++ ". "
      ++ jsOrS p.2.title ("Unknown Vulnerability")) sev,
   repeatChar '-' 80,
   "Source Tool: " ++ jsOrS p.2.source ("Unknown"),
   "Category: " ++ jsOrS p.2.category ("N/A")]
    ++ (if truthyS p.2.url then [("URL: " ++ jsOrS p.2.url (""))] else [])
    ++ (if truthyS p.2.method then [("Method: " ++ jsOrS p.2.method (""))] else [])
    ++ (if truthyS p.2.parameter || truthyS p.2.param then
          [("Parameter: " ++ jsOrS p.2.parameter (jsOrS p.2.param ("")))]
        else [])
    ++ ["", "Description:", jsOrS p.2.description ("No description available")]
    ++ (if detailed then textVulnDetails p.2 else [])
    ++ [""]

/-- One row (plus optional error line) of the tools-summary table
(src/lib/reports.js:888-906). -/
def textToolRow (co detailed : Bool) (r : ScanResult) (w : Nat) (tool : String) : List String :=
  let res := lookupTool r.results tool
  let status := jsOrS (res.map ToolResult.status) ("unknown")
  let vulnCount := match res with
    | some tr => tr.vulnerabilities.length
    | none => 0
  let statusColor := if status = "completed" then "success"
    else if status = "error" then "error" else "warning"
  [padEnd (toUpperJS tool) w ++ " | " ++ colorize co (padEnd status 10) statusColor
     ++ " | " ++ padEnd (toString vulnCount) 12]
    ++ (if status = "error" && truthyS (res.bind ToolResult.error) && detailed then
          [("  " ++ colorize co ("Error: " ++ jsOrS (res.bind ToolResult.error) ("")) ("error"))]
        else [])

/-- All lines pushed by `generateTextReport` before the footer timestamp
line (src/lib/reports.js:818-988), in push order. -/
def textLinesMain (r : ScanResult) (detailed co : Bool) (env : Env) : List String :=
  let total := r.summary.total
  let w := r.tools.foldl (fun m t => max m t.length) 10
  [colorize co (repeatChar '=' 80) ("bold"),
   colorize co ("SECURITY SCAN REPORT") ("bold"),
   colorize co (repeatChar '=' 80) ("bold"),
   "",
   colorize co ("SCAN INFORMATION") ("bold"),
   repeatChar '-' 30,
   "Target: " ++ colorize co r.target ("bold")]
    ++ (match r.parsedUrl with
        | some pu => [("URL: " ++ pu.href), ("Hostname: " ++ pu.hostname)]
        | none => [])
    ++ ["Scan ID: " ++ r.id,
        "Status: " ++ colorize co (toUpperJS r.status)
          (if r.status = "completed" then "success" else "error"),
        "Duration: " ++ colorize co (formatDuration (durOrZero r)) ("bold"),
        "Started: " ++ env.dateLocale r.startTime,
        "Completed: " ++ env.dateLocale (jsOrS r.endTime r.startTime)]
    ++ (if truthyS r.projectId then [("Project ID: " ++ jsOrS r.projectId (""))] else [])
    ++ (if truthyS r.scanProfile then [("Scan Profile: " ++ jsOrS r.scanProfile (""))] else [])
    ++ ["Output Directory: " ++ jsOrS r.outputDir ("N/A"), ""]
    ++ sectionHeader co ("VULNERABILITY SUMMARY")
    ++ ["Total Vulnerabilities: "
          ++ colorize co (toString total) (if total > 0 then "warning" else "success"),
        ""]
    ++ (if total > 0 then
          [("Critical: " ++ colorize co (padStart (toString r.summary.critical) 3) ("critical")
              ++ " " ++ createBar r.summary.critical total),
           ("High:     " ++ colorize co (padStart (toString r.summary.high) 3) ("high")
              ++ " " ++ createBar r.summary.high total),
           ("Medium:   " ++ colorize co (padStart (toString r.summary.medium) 3) ("medium")
              ++ " " ++ createBar r.summary.medium total),
           ("Low:      " ++ colorize co (padStart (toString r.summary.low) 3) ("low")
              ++ " " ++ createBar r.summary.low total),
           ("Info:     " ++ colorize co (padStart (toString r.summary.info) 3) ("info")
              ++ " " ++ createBar r.summary.info total)]
        else [colorize co ("No vulnerabilities found! Your application appears to be secure.") ("success")])
    ++ [""]
    ++ sectionHeader co ("TOOLS SUMMARY")
    ++ [padEnd ("TOOL") w ++ " | " ++ padEnd ("STATUS") 10 ++ " | " ++ padEnd ("VULNS FOUND") 12,
        repeatChar '-' w ++ "-+-" ++ repeatChar '-' 10 ++ "-+-" ++ repeatChar '-' 12]
    ++ (r.tools.map (textToolRow co detailed r w)).flatten
    ++ [""]
    ++ (if r.vulnerabilities.length > 0 then
          sectionHeader co ("VULNERABILITIES DETAILS")
            ++ ((((sortByDesc (fun v => textSeverityScore v.severity) r.vulnerabilities)).enum.map
                  (textVulnLines co detailed)).flatten)
        else
          ["NO VULNERABILITIES FOUND", repeatChar '-' 30,
           colorize co ("Great! No security vulnerabilities were detected during this scan.") ("success"),
           ""])
    ++ [colorize co (repeatChar '=' 80) ("bold")]

/-- `generateTextReport` (src/lib/reports.js:788-996): all pushed lines
joined with newlines; the render-time `new Date().toLocaleString()` sits on
the next-to-last line.  `[...vulns].sort(cmp)` is modelled as a stable merge
sort on the comparator's key, matching modern engines' stable `sort`. -/
def generateTextReport (r : ScanResult) (detailed co : Bool) (env : Env) (clk : Clock) : String :=
  joinSep ("\n")
    (textLinesMain r detailed co env
      ++ ["Report generated by @profullstack/scanner v2.0 on " ++ clk.locale,
          colorize co (repeatChar '=' 80) ("bold")])

/-- The options `generateSingleReport` consumes (src/lib/reports.js:45-51);
each defaults to the value an absent property yields.  The `uiFormat: true`
JSON variant is outside every claim and not modelled. -/
structure ReportOptions where
  includeRawOutput : Bool := false
  detailed : Bool := false

/-- `generateSingleReport` (src/lib/reports.js:45-70): the format switch.
`.error` models the thrown `Unsupported report format` error — nothing is
rendered in that case.  Note the switch also accepts `'txt'` and lower-cases
its input first.  The text renderer gets `colorOutput`'s default `true`. -/
def generateSingleReport (r : ScanResult) (opts : ReportOptions) (env : Env)
    (clk : Clock) (rand : Nat → String) (format : String) : Except String String :=
  match toLowerJS format with
  | "json" => .ok (generateJsonReport r opts.includeRawOutput clk rand)
  | "html" => .ok (generateHtmlReport r env clk)
  | "csv" => .ok (generateCsvReport r)
  | "xml" => .ok (generateXmlReport r clk)
  | "markdown" => .ok (generateMarkdownReport r env clk)
  | "txt" => .ok (generateTextReport r opts.detailed true env clk)
  | "text" => .ok (generateTextReport r opts.detailed true env clk)
  | _ => .error ("Unsupported report format: " ++ format)

/-- One concrete Wapiti finding entry (level 3). -/
def wapitiEntryW : WapitiVuln :=
  { wstg := some ("W1"), level := some 3, title := some ("T"),
    description := some ("D"),
    http_request := some { url := some ("U"), method := some ("POST") },
    parameter := some ("p") }

/-- A concrete Wapiti output file with one level-3 finding. -/
def wapitiFileW : Option (Except Unit WapitiData) :=
  some (.ok { vulnerabilities := some [(("CatA" : String), [wapitiEntryW])] })

/-- The record `parseWapitiResults` builds from `wapitiFileW`. -/
def wapitiVulnW : Vuln :=
  { id := some ("W1"), severity := some ("high"), title := some ("T"),
    description := some ("D"), url := some ("U"), method := some ("POST"),
    parameter := some ("p"), category := some ("CatA"),
    level := some (.num 3) }

/-- The severity invariant of the SQLMap line-scanner accumulator. -/
def sqlmapHigh (acc : List Vuln × Option Vuln) : Prop :=
  (∀ v ∈ acc.1, v.severity = some ("high"))
  ∧ ∀ c, acc.2 = some c → c.severity = some ("high")

/-- A Nuclei record whose tool-reported severity is the non-canonical string
`unknown`. -/
def nucleiDataUnknown : NucleiData :=
  { templateID := some ("t1"),
    info := some { severity := some ("unknown"), name := some ("N") },
    matched := some ("http://x") }

/-- A concrete httpx NDJSON line. -/
def httpxFileW : Option (List (Except Unit HttpxData)) :=
  some [.ok { url := some ("http://a"), webserver := some ("nginx") }]

/-- The finding `parseHttpxResults` builds from `httpxFileW`. -/
def httpxVulnW : Vuln :=
  { id := some ("httpx-finding"), severity := some ("info"),
    title := some ("HTTP Service: http://a"),
    description := some ("HTTP service details for http://a"),
    url := some ("http://a"), method := some ("GET"),
    category := some ("HTTP Service Discovery"), technologies := some [],
    webServer := some ("nginx") }

/-- The finding `parseSqlmapResults` reconstructs from one marker line. -/
def sqlmapVulnW : Vuln :=
  { id := some ("sql-injection"), severity := some ("high"),
    title := some ("SQL Injection"),
    description := some ("SQL injection vulnerability found in parameter: uid"),
    parameter := some ("uid"), sqliType := some ("GET"),
    category := some ("SQL Injection"), method := some ("Unknown") }

/-- A severity string that avoids the bracket-lookup quirks of the summary
loop: its lower-cased key is none of `total`, `constructor`, `__proto__`. -/
def goodSeverity (v : Vuln) : Bool :=
  let k := severityKey v
  !(k == "total" || k == "constructor" || k == "__proto__")

/-- The adapter table of the C1 witness scan: one nikto result with one
high-severity finding. -/
def adaptersW : String → Option ToolResult := fun t =>
  if t = "nikto" then
    some { status := "completed", vulnerabilities := [{ severity := some ("high") }] }
  else none

/-- The outcome `scanTarget` produces for the C1 witness scan. -/
def outW : ScanOutcome :=
  { status := "completed"
    results := [(("nikto" : String),
      ({ status := "completed", vulnerabilities := [{ severity := some ("high") }] } : ToolResult))]
    vulnerabilities := [{ severity := some ("high"), source := some ("nikto"),
                          scanId := some ("scan-w") }]
    summary := { total := 1, high := 1 }
    spawned := 2 }

/-- The lower-cased format names the report switch accepts. -/
def acceptedFormats : List String :=
  ["json", "html", "csv", "xml", "markdown", "txt", "text"]

/-- A minimal `ScanResult`. -/
def rEmpty : ScanResult := { id := "s", target := "t" }

/-- The identity date-locale environment. -/
def envId : Env := ⟨fun s => s⟩

/-- Occurrences of a character in a string. -/
def countChar (c : Char) (s : String) : Nat :=
  (s.data.filter (fun x => x == c)).length

/-- The row count of a rendered report: newline count plus one. -/
def rowCount (s : String) : Nat := countChar '\n' s + 1

/-- Modelled from the spec's words ("every field quoted, embedded quotes
doubled"): the row a spec-conforming CSV renderer would emit, with the
embedded double quotes of **every** field doubled. -/
def csvRowSpec (r : ScanResult) (v : Vuln) : List String :=
  (csvRow r v).map (fun c => replaceJS c ("\"") ("\"\""))

/-- Modelled from the spec's words: the spec-conforming CSV report. -/
def generateCsvReportSpec (r : ScanResult) : String :=
  joinSep ("\n")
    ((joinSep (",") (csvHeaders.map (fun h => "\"" ++ h ++ "\"")))
      :: (r.vulnerabilities.map (csvRowSpec r)).map (fun row =>
            joinSep (",") (row.map (fun c => "\"" ++ c ++ "\""))))

/-- A scan result with one vulnerability whose title embeds a double quote. -/
def rCsv : ScanResult :=
  { id := "s", target := "t", vulnerabilities := [{ title := some ("a\"b") }] }

/-- A scan result whose single vulnerability title is a script tag. -/
def rXss : ScanResult :=
  { id := "s", target := "t",
    vulnerabilities := [{ title := some ("<script>alert(1)</script>") }] }

/-- Replace the `report_generated_at` property of a metadata object. -/
def setMetaTs (j : Json) (ts : String) : Json :=
  match j with
  | .obj fs => .obj (fs.map (fun kv =>
      if kv.1 = "report_generated_at" then (kv.1, Json.str ts) else kv))
  | j => j

/-- Replace the generation timestamp field of a JSON report object. -/
def setReportTs (j : Json) (ts : String) : Json :=
  match j with
  | .obj fs => .obj (fs.map (fun kv =>
      if kv.1 = "metadata" then (kv.1, setMetaTs kv.2 ts) else kv))
  | j => j

/-- A scan result with one id-less vulnerability. -/
def rJson : ScanResult :=
  { id := "s", target := "t", vulnerabilities := [{}] }

/-- A scan result whose single vulnerability carries an id. -/
def rWithId : ScanResult :=
  { id := "s", target := "t", vulnerabilities := [{ id := some ("v1") }] }

/-! ## Supporting lemmas -/

/-- Membership in an appending fold. -/
theorem mem_foldl_append {α β : Type} (f : β → List α) (l : List β) (init : List α) (a : α) :
    a ∈ l.foldl (fun acc b => acc ++ f b) init ↔ a ∈ init ∨ ∃ b ∈ l, a ∈ f b := by
  induction l generalizing init with
  | nil => simp
  | cons x xs ih =>
      simp only [List.foldl_cons, ih, List.mem_append, List.mem_cons]
      constructor
      · rintro (⟨h | h⟩ | ⟨b, hb, hfb⟩)
        · exact Or.inl h
        · exact Or.inr ⟨x, Or.inl rfl, h⟩
        · exact Or.inr ⟨b, Or.inr hb, hfb⟩
      · rintro (h | ⟨b, (rfl | hb), hfb⟩)
        · exact Or.inl (Or.inl h)
        · exact Or.inl (Or.inr hfb)
        · exact Or.inr ⟨b, hb, hfb⟩

/-- `mapWapitiSeverity` only produces the four lower severities. -/
theorem mapWapitiSeverity_mem (level : Option Int) :
    mapWapitiSeverity level ∈ (["high", "medium", "low", "info"] : List String) := by
  unfold mapWapitiSeverity
  split_ifs <;> simp

/-- Every record `parseWapitiResults` builds carries a `mapWapitiSeverity`
severity. -/
theorem parseWapitiResults_severity (file : Option (Except Unit WapitiData)) (v : Vuln)
    (hv : v ∈ parseWapitiResults file) :
    ∃ lv : Option Int, v.severity = some (mapWapitiSeverity lv) := by
  match file with
  | none => simp [parseWapitiResults] at hv
  | some (.error _) => simp [parseWapitiResults] at hv
  | some (.ok data) =>
      rcases data with ⟨vulns⟩
      rcases vulns with _ | cats
      · simp [parseWapitiResults] at hv
      · simp only [parseWapitiResults] at hv
        rcases (mem_foldl_append _ cats [] v).mp hv with h | ⟨cv, _, hmem⟩
        · simp at h
        · rcases List.mem_map.mp hmem with ⟨w, _, rfl⟩
          exact ⟨w.level, rfl⟩

/-- C10 (helper): the canonical Wapiti severities never include critical. -/
theorem mapWapitiSeverity_ne_critical (level : Option Int) :
    mapWapitiSeverity level ≠ "critical" := by
  unfold mapWapitiSeverity
  split_ifs <;> simp

/-- C10: the Wapiti severity mapping never produces `critical`: every integer
level maps into \x7bhigh, medium, low, info\x7d, and no record built by
`parseWapitiResults` is rated critical. -/
theorem wapiti_never_critical :
    (∀ level : Option Int,
        mapWapitiSeverity level ∈ (["high", "medium", "low", "info"] : List String))
    ∧ ∀ (file : Option (Except Unit WapitiData)) (v : Vuln),
        v ∈ parseWapitiResults file → v.severity ≠ some ("critical") := by
  refine ⟨mapWapitiSeverity_mem, fun file v hv hcrit => ?_⟩
  rcases parseWapitiResults_severity file v hv with ⟨lv, hsev⟩
  rw [hsev] at hcrit
  exact mapWapitiSeverity_ne_critical lv (Option.some.inj hcrit)

/-- C10 witness: the theorem applied at a concrete level and a concrete
parsed file. -/
theorem wapiti_never_critical_witness :
    mapWapitiSeverity (some 3) ∈ (["high", "medium", "low", "info"] : List String)
    ∧ wapitiVulnW.severity ≠ some ("critical") :=
  ⟨wapiti_never_critical.1 (some 3),
   wapiti_never_critical.2 wapitiFileW wapitiVulnW
     (by
        have h : parseWapitiResults wapitiFileW = [wapitiVulnW] := rfl
        rw [h]
        exact List.mem_singleton.mpr rfl)⟩

/-- `mapNiktoSeverity` always lands in the canonical set. -/
theorem mapNiktoSeverity_mem (o : Option String) :
    mapNiktoSeverity o ∈ canonicalSeverities := by
  rcases o with _ | s
  · simp [mapNiktoSeverity, canonicalSeverities]
  · simp only [mapNiktoSeverity]
    split_ifs <;> simp [canonicalSeverities]

/-- Every record `parseNiktoResults` builds carries a `mapNiktoSeverity`
severity. -/
theorem parseNiktoResults_severity (file : Option (Except Unit NiktoDoc)) (v : Vuln)
    (hv : v ∈ parseNiktoResults file) :
    ∃ o : Option String, v.severity = some (mapNiktoSeverity o) := by
  match file with
  | none => simp [parseNiktoResults] at hv
  | some (.error _) => simp [parseNiktoResults] at hv
  | some (.ok doc) =>
      rcases doc with ⟨ns⟩
      rcases ns with _ | ⟨sd⟩
      · simp [parseNiktoResults] at hv
      · rcases sd with _ | details
        · simp [parseNiktoResults] at hv
        · simp only [parseNiktoResults] at hv
          rcases (mem_foldl_append _ details [] v).mp hv with h | ⟨d, _, hmem⟩
          · simp at h
          · rcases d with ⟨items⟩
            rcases items with _ | items
            · simp at hmem
            · simp only at hmem
              rcases List.mem_map.mp hmem with ⟨it, _, rfl⟩
              exact ⟨it.osvdbid, rfl⟩

/-- Every httpx finding is rated `info`. -/
theorem parseHttpxResults_severity (file : Option (List (Except Unit HttpxData))) (v : Vuln)
    (hv : v ∈ parseHttpxResults file) : v.severity = some ("info") := by
  match file with
  | none => simp [parseHttpxResults] at hv
  | some lines =>
      simp only [parseHttpxResults] at hv
      rcases (mem_foldl_append _ lines [] v).mp hv with h | ⟨l, _, hmem⟩
      · simp at h
      · match l with
        | .error _ => simp at hmem
        | .ok d =>
            simp only [List.mem_singleton] at hmem
            rw [hmem]

/-- One `sqlmapStep` preserves the severity invariant. -/
theorem sqlmapStep_high (acc : List Vuln × Option Vuln) (line : String)
    (h : sqlmapHigh acc) : sqlmapHigh (sqlmapStep acc line) := by
  obtain ⟨h1, h2⟩ := h
  unfold sqlmapStep
  by_cases hp : containsSub (trimJS line) ("Parameter:") = true
  · simp only [hp, if_true]
    have hflush : ∀ v ∈ acc.1 ++ acc.2.toList, v.severity = some ("high") := by
      intro v hv
      rcases List.mem_append.mp hv with h | h
      · exact h1 v h
      · exact h2 v (Option.mem_toList.mp h)
    match matchSqlmapParameter (trimJS line) with
    | some m => exact ⟨hflush, fun c hc => by cases hc; rfl⟩
    | none => exact ⟨hflush, h2⟩
  · simp only [hp, if_false]
    match hacc : acc.2 with
    | none => exact ⟨h1, fun c hc => h2 c (hacc ▸ hc)⟩
    | some cv =>
        have hcv : cv.severity = some ("high") := h2 cv hacc
        by_cases ht : containsSub (trimJS line) ("Type:") = true
        · simp only [ht, if_true]
          match matchAfter (trimJS line) ("Type: ") with
          | some t => exact ⟨h1, fun c hc => by cases hc; exact hcv⟩
          | none => exact ⟨h1, fun c hc => h2 c (hacc ▸ hc)⟩
        · simp only [ht, if_false]
          by_cases hti : containsSub (trimJS line) ("Title:") = true
          · simp only [hti, if_true]
            match matchAfter (trimJS line) ("Title: ") with
            | some t => exact ⟨h1, fun c hc => by cases hc; exact hcv⟩
            | none => exact ⟨h1, fun c hc => h2 c (hacc ▸ hc)⟩
          · simp only [hti, if_false]
            by_cases hpl : containsSub (trimJS line) ("Payload:") = true
            · simp only [hpl, if_true]
              match matchAfter (trimJS line) ("Payload: ") with
              | some t => exact ⟨h1, fun c hc => by cases hc; exact hcv⟩
              | none => exact ⟨h1, fun c hc => h2 c (hacc ▸ hc)⟩
            · simp only [hpl, if_false]
              exact ⟨h1, fun c hc => h2 c (hacc ▸ hc)⟩

/-- The invariant holds after folding any line list. -/
theorem sqlmapFold_high (lines : List String) (acc : List Vuln × Option Vuln)
    (h : sqlmapHigh acc) : sqlmapHigh (lines.foldl sqlmapStep acc) := by
  induction lines generalizing acc with
  | nil => exact h
  | cons l ls ih => exact ih _ (sqlmapStep_high acc l h)

/-- Every SQLMap finding is rated `high`. -/
theorem parseSqlmapResults_severity (out err : String) (v : Vuln)
    (hv : v ∈ parseSqlmapResults out err) : v.severity = some ("high") := by
  unfold parseSqlmapResults at hv
  have h := sqlmapFold_high (splitLinesJS (out ++ err)) ([], none)
    ⟨by simp, by simp⟩
  rcases List.mem_append.mp hv with hm | hm
  · exact h.1 v hm
  · exact h.2 v (Option.mem_toList.mp hm)

/-- C2 (amended): the Nikto, Wapiti, httpx and SQLMap adapters always store a
canonical severity (with unrecognized or absent input mapped to `info`, the
SQLMap constant being `high`), but the Nuclei adapter copies the tool-reported
severity string verbatim — only an absent or empty one becomes `info`. -/
theorem adapter_severity_mapping :
    (∀ o : Option String, mapNiktoSeverity o ∈ canonicalSeverities)
    ∧ (∀ level : Option Int, mapWapitiSeverity level ∈ canonicalSeverities)
    ∧ (∀ (file : Option (Except Unit NiktoDoc)) (v : Vuln), v ∈ parseNiktoResults file →
        ∃ s, v.severity = some s ∧ s ∈ canonicalSeverities)
    ∧ (∀ (file : Option (Except Unit WapitiData)) (v : Vuln), v ∈ parseWapitiResults file →
        ∃ s, v.severity = some s ∧ s ∈ canonicalSeverities)
    ∧ (∀ (file : Option (List (Except Unit HttpxData))) (v : Vuln), v ∈ parseHttpxResults file →
        v.severity = some ("info"))
    ∧ (∀ out err v, v ∈ parseSqlmapResults out err → v.severity = some ("high"))
    ∧ ∀ d : NucleiData,
        (nucleiVulnOf d).severity = some (jsOrS (d.info.bind NucleiInfo.severity) ("info")) := by
  refine ⟨mapNiktoSeverity_mem, ?_, ?_, ?_, parseHttpxResults_severity,
    parseSqlmapResults_severity, fun d => rfl⟩
  · intro level
    have h := mapWapitiSeverity_mem level
    unfold mapWapitiSeverity at h ⊢
    split_ifs <;> simp [canonicalSeverities]
  · intro file v hv
    rcases parseNiktoResults_severity file v hv with ⟨o, ho⟩
    exact ⟨mapNiktoSeverity o, ho, mapNiktoSeverity_mem o⟩
  · intro file v hv
    rcases parseWapitiResults_severity file v hv with ⟨lv, hlv⟩
    refine ⟨mapWapitiSeverity lv, hlv, ?_⟩
    unfold mapWapitiSeverity
    split_ifs <;> simp [canonicalSeverities]

/-- C2 counterexample: a Nuclei line with severity `"unknown"` produces a
record whose stored severity is `"unknown"`, which is not one of the five
canonical severities — the unrecognized input is not mapped to `info`. -/
theorem nuclei_severity_not_canonical :
    ((parseNucleiResults (some [.ok nucleiDataUnknown])).map Vuln.severity
        = [some ("unknown")])
    ∧ ("unknown" : String) ∉ canonicalSeverities :=
  ⟨rfl, by decide⟩

/-- C2 witness: the mapping theorem applied at concrete inputs. -/
theorem adapter_severity_mapping_witness :
    mapNiktoSeverity (some ("12345")) ∈ canonicalSeverities
    ∧ httpxVulnW.severity = some ("info")
    ∧ sqlmapVulnW.severity = some ("high")
    ∧ (nucleiVulnOf nucleiDataUnknown).severity
        = some (jsOrS (nucleiDataUnknown.info.bind NucleiInfo.severity) ("info")) :=
  ⟨adapter_severity_mapping.1 (some ("12345")),
   adapter_severity_mapping.2.2.2.2.1 httpxFileW httpxVulnW
     (by
        have h : parseHttpxResults httpxFileW = [httpxVulnW] := rfl
        rw [h]; exact List.mem_singleton.mpr rfl),
   adapter_severity_mapping.2.2.2.2.2.1 ("Parameter: uid (GET)") ("") sqlmapVulnW
     (by
        have h : parseSqlmapResults ("Parameter: uid (GET)") ("") = [sqlmapVulnW] := rfl
        rw [h]; exact List.mem_singleton.mpr rfl),
   adapter_severity_mapping.2.2.2.2.2.2 nucleiDataUnknown⟩

/-- A quirk-free bump adds one to `total`, one to exactly one bucket, and
leaves the extra keys alone. -/
theorem bumpSummary_good (s : Summary) (k : String)
    (h1 : k ≠ "total") (h2 : k ≠ "constructor") (h3 : k ≠ "__proto__") :
    (bumpSummary s k).total = s.total + 1
    ∧ bucketSum (bumpSummary s k) = bucketSum s + 1
    ∧ (bumpSummary s k).extraKeys = s.extraKeys := by
  unfold bumpSummary
  split_ifs <;> simp_all [bucketSum] <;> omega

/-- Folding quirk-free severities over any summary adds the list length to
`total` and to the bucket sum and leaves the extra keys alone. -/
theorem computeSummary_fold (vulns : List Vuln) (s : Summary)
    (h : ∀ v ∈ vulns, goodSeverity v = true) :
    (vulns.foldl (fun s v => bumpSummary s (severityKey v)) s).total
        = s.total + vulns.length
    ∧ bucketSum (vulns.foldl (fun s v => bumpSummary s (severityKey v)) s)
        = bucketSum s + vulns.length
    ∧ (vulns.foldl (fun s v => bumpSummary s (severityKey v)) s).extraKeys
        = s.extraKeys := by
  induction vulns generalizing s with
  | nil => simp
  | cons v vs ih =>
      have hv := h v (List.mem_cons_self v vs)
      have hks : (severityKey v ≠ "total" ∧ severityKey v ≠ "constructor")
          ∧ severityKey v ≠ "__proto__" := by
        unfold goodSeverity at hv
        simp only [Bool.not_or] at hv
        simpa using hv
      have hb := bumpSummary_good s (severityKey v) hks.1.1 hks.1.2 hks.2
      have ihs := ih (bumpSummary s (severityKey v)) (fun w hw => h w (List.mem_cons_of_mem v hw))
      simp only [List.foldl_cons, List.length_cons]
      refine ⟨?_, ?_, ?_⟩
      · rw [ihs.1, hb.1]; omega
      · rw [ihs.2.1, hb.2.1]; omega
      · rw [ihs.2.2, hb.2.2]

/-- Stamping source and scan id leaves the severity key unchanged. -/
theorem severityKey_tag (v : Vuln) (t scanId : String) :
    severityKey { v with source := some t, scanId := some scanId } = severityKey v := rfl

/-- Aggregated vulnerabilities inherit quirk-free severities from their tool
results. -/
theorem aggregateVulns_good (scanId : String) (results : List (String × ToolResult))
    (h : ∀ tr ∈ results, ∀ v ∈ tr.2.vulnerabilities, goodSeverity v = true) :
    ∀ v ∈ aggregateVulns scanId results, goodSeverity v = true := by
  intro v hv
  unfold aggregateVulns at hv
  rcases (mem_foldl_append _ results [] v).mp hv with hmem | ⟨tr, htr, hmem⟩
  · simp at hmem
  · rcases List.mem_map.mp hmem with ⟨w, hw, rfl⟩
    have := h tr htr w hw
    unfold goodSeverity severityKey at this ⊢
    simpa using this

/-- C1 (amended): for every finished `ScanResult` produced by `scanTarget`,
`summary.total` equals `vulnerabilities.length`, the five severity buckets sum
to `summary.total`, and the histogram keys are exactly the five canonical
severities — provided no vulnerability's lower-cased severity string is
`total`, `constructor` or `__proto__` (those hit the JavaScript bracket-lookup
quirk of the summary loop and break the invariants). -/
theorem scan_summary_invariants (scanId : String) (tools : List String)
    (avail : String → Bool) (adapters : String → Option ToolResult) (out : ScanOutcome)
    (hgood : ∀ t res, adapters t = some res → ∀ v ∈ res.vulnerabilities, goodSeverity v = true)
    (heq : scanTarget true scanId tools avail adapters = .ok out) :
    out.summary.total = out.vulnerabilities.length
    ∧ bucketSum out.summary = out.summary.total
    ∧ histogramKeys out.summary = canonicalSeverities := by
  unfold scanTarget at heq
  simp only [Bool.not_true, Bool.false_eq_true, if_false, Except.ok.injEq] at heq
  subst heq
  set results := tools.map (fun t =>
    if !avail t then
      (t, ({ status := "skipped", reason := some ("Tool not available"),
             vulnerabilities := [] } : ToolResult))
    else (t, dispatchTool adapters t)) with hres
  have hresults : ∀ tr ∈ results, ∀ v ∈ tr.2.vulnerabilities, goodSeverity v = true := by
    intro tr htr v hv
    rw [hres] at htr
    rcases List.mem_map.mp htr with ⟨t, _, rfl⟩
    by_cases ha : avail t
    · simp only [ha, Bool.not_true, Bool.false_eq_true, if_false] at hv
      unfold dispatchTool at hv
      match hd : adapters t with
      | some res => rw [hd] at hv; exact hgood t res hd v hv
      | none => rw [hd] at hv; simp at hv
    · simp only [ha, Bool.not_false, if_true] at hv
      simp at hv
  have hagg := aggregateVulns_good scanId results hresults
  have hsum := computeSummary_fold (aggregateVulns scanId results) {} hagg
  refine ⟨?_, ?_, ?_⟩
  · show (computeSummary (aggregateVulns scanId results)).total
        = (aggregateVulns scanId results).length
    unfold computeSummary
    simpa using hsum.1
  · show bucketSum (computeSummary (aggregateVulns scanId results))
        = (computeSummary (aggregateVulns scanId results)).total
    unfold computeSummary
    rw [hsum.2.1, hsum.1]
    simp [bucketSum]
  · show histogramKeys (computeSummary (aggregateVulns scanId results)) = canonicalSeverities
    unfold histogramKeys computeSummary
    rw [hsum.2.2]
    rfl

/-- C1 counterexample: one tool result carrying a single vulnerability whose
severity string is `"total"` makes the finished scan report
`summary.total = 2` for one vulnerability, with all five buckets zero — the
double-increment of the bracket lookup `summary[severity]`. -/
theorem summary_total_counterexample :
    ((scanTarget true ("scan-1") [("nikto")] (fun _ => true)
        (fun t => if t = "nikto" then
            some { status := "completed", vulnerabilities := [{ severity := some ("total") }] }
          else none)).map
        (fun o => (o.summary.total, o.vulnerabilities.length, bucketSum o.summary))
      = .ok (2, 1, 0))
    ∧ (2 : Nat) ≠ 1 ∧ (0 : Nat) ≠ 2 :=
  ⟨rfl, by decide, by decide⟩

/-- C1 witness: the invariants hold on a concrete one-tool scan. -/
theorem scan_summary_invariants_witness :
    outW.summary.total = outW.vulnerabilities.length
    ∧ bucketSum outW.summary = outW.summary.total
    ∧ histogramKeys outW.summary = canonicalSeverities :=
  scan_summary_invariants ("scan-w") [("nikto")] (fun _ => true) adaptersW outW
    (by
      intro t res hres v hv
      unfold adaptersW at hres
      by_cases ht : t = "nikto"
      · simp only [ht, if_true, Option.some.injEq] at hres
        subst hres
        simp only [List.mem_singleton] at hv
        subst hv
        decide
      · simp [ht] at hres)
    rfl

/-- C4: calling `scanTarget` with a valid target and an empty tool list does
not fail — it runs the loop zero times and returns a completed `ScanResult`
with no tool invocations, no vulnerabilities and no spawned subprocess (the
repository's own test `scanTarget should handle empty tools array` expects a
thrown error instead). -/
theorem empty_tools_scan_completes :
    (scanTarget true ("scan-1") [] (fun _ => false) (fun _ => none)).map
        (fun o => (o.status, o.spawned, o.results.length, o.vulnerabilities.length))
      = .ok (("completed"), 0, 0, 0) := rfl

/-- C8 (amended): when the timeout elapses on a live process the runner
immediately sends `SIGKILL` — with no preceding termination signal and no
grace period — and rejects with the timeout message; the graceful
`SIGTERM`-then-`SIGKILL`-after-3-seconds sequence belongs only to the
external cancellation (SIGINT/SIGTERM) handler, whose delayed kill moreover
never fires once the termination signal has been delivered. -/
theorem timeout_kill_behaviour (t : Nat) (s : RunnerState) (hk : s.isKilled = false) :
    (timeoutFire t s
      = ({ isKilled := true, childSignalled := true }, [("SIGKILL")],
         some ("Command timed out after " ++ toString t ++ "ms")))
    ∧ (∀ s2 : RunnerState, s2.isKilled = false → s2.childSignalled = false →
        cancelImmediate s2 = ({ isKilled := true, childSignalled := true }, [("SIGTERM")]))
    ∧ cancelGraceMs = 3000
    ∧ (∀ s3 : RunnerState, s3.childSignalled = true → cancelDelayed s3 = []) := by
  refine ⟨?_, ?_, rfl, ?_⟩
  · simp [timeoutFire, hk]
  · intro s2 h1 h2
    simp [cancelImmediate, h1, h2]
  · intro s3 h
    simp [cancelDelayed, h]

/-- C8 counterexample: on timeout the first (and only) signal sent is
`SIGKILL`, not a termination signal — the forced kill is first. -/
theorem timeout_first_signal_sigkill :
    (timeoutFire 100 {}).2.1 = [("SIGKILL")]
    ∧ (("SIGKILL") : String) ≠ ("SIGTERM") :=
  ⟨rfl, by decide⟩

/-- C8 witness: the timeout behaviour at a concrete timeout and the initial
runner state. -/
theorem timeout_kill_behaviour_witness :
    timeoutFire 100 {}
      = ({ isKilled := true, childSignalled := true }, [("SIGKILL")],
         some ("Command timed out after " ++ toString (100 : Nat) ++ "ms")) :=
  (timeout_kill_behaviour 100 {} rfl).1

/-- Tagged-result shape of `runNikto`. -/
theorem runNikto_tagged (ofile : String) (ex : Except String (String × String))
    (fn : Option (Except Unit NiktoDoc)) :
    ((runNikto ofile ex fn).status = "completed" ∨ (runNikto ofile ex fn).status = "error")
    ∧ (∀ e, ex = .error e → runNikto ofile ex fn
        = { status := "error", tool := some ("nikto"), error := some e, vulnerabilities := [] })
    ∧ ((fn = none ∨ ∃ u, fn = some (.error u)) → (runNikto ofile ex fn).vulnerabilities = []) := by
  rcases ex with e | ⟨o, errs⟩
  · refine ⟨Or.inr rfl, ?_, ?_⟩
    · intro e' he'; cases he'; rfl
    · intro _; rfl
  · refine ⟨Or.inl rfl, ?_, ?_⟩
    · intro e' he'; cases he'
    · intro hbad; rcases hbad with rfl | ⟨u, rfl⟩ <;> rfl

/-- Tagged-result shape of `runHttpx`. -/
theorem runHttpx_tagged (ofile : String) (ex : Except String (String × String))
    (fh : Option (List (Except Unit HttpxData))) :
    ((runHttpx ofile ex fh).status = "completed" ∨ (runHttpx ofile ex fh).status = "error")
    ∧ (∀ e, ex = .error e → runHttpx ofile ex fh
        = { status := "error", tool := some ("httpx"), error := some e, vulnerabilities := [] })
    ∧ (fh = none → (runHttpx ofile ex fh).vulnerabilities = []) := by
  rcases ex with e | ⟨o, errs⟩
  · refine ⟨Or.inr rfl, ?_, ?_⟩
    · intro e' he'; cases he'; rfl
    · intro _; rfl
  · refine ⟨Or.inl rfl, ?_, ?_⟩
    · intro e' he'; cases he'
    · intro hbad; subst hbad; rfl

/-- Tagged-result shape of `runWapiti`. -/
theorem runWapiti_tagged (ofile : String) (ex : Except String (String × String))
    (fw : Option (Except Unit WapitiData)) :
    ((runWapiti ofile ex fw).status = "completed" ∨ (runWapiti ofile ex fw).status = "error")
    ∧ (∀ e, ex = .error e → runWapiti ofile ex fw
        = { status := "error", tool := some ("wapiti"), error := some e, vulnerabilities := [] })
    ∧ ((fw = none ∨ ∃ u, fw = some (.error u)) → (runWapiti ofile ex fw).vulnerabilities = []) := by
  rcases ex with e | ⟨o, errs⟩
  · refine ⟨Or.inr rfl, ?_, ?_⟩
    · intro e' he'; cases he'; rfl
    · intro _; rfl
  · refine ⟨Or.inl rfl, ?_, ?_⟩
    · intro e' he'; cases he'
    · intro hbad; rcases hbad with rfl | ⟨u, rfl⟩ <;> rfl

/-- Tagged-result shape of `runNuclei`. -/
theorem runNuclei_tagged (ofile : String) (ex : Except String (String × String))
    (fu : Option (List (Except Unit NucleiData))) :
    ((runNuclei ofile ex fu).status = "completed" ∨ (runNuclei ofile ex fu).status = "error")
    ∧ (∀ e, ex = .error e → runNuclei ofile ex fu
        = { status := "error", tool := some ("nuclei"), error := some e, vulnerabilities := [] })
    ∧ (fu = none → (runNuclei ofile ex fu).vulnerabilities = []) := by
  rcases ex with e | ⟨o, errs⟩
  · refine ⟨Or.inr rfl, ?_, ?_⟩
    · intro e' he'; cases he'; rfl
    · intro _; rfl
  · refine ⟨Or.inl rfl, ?_, ?_⟩
    · intro e' he'; cases he'
    · intro hbad; subst hbad; rfl

/-- Tagged-result shape of `runSqlmap`. -/
theorem runSqlmap_tagged (ofile : String) (ex : Except String (String × String)) :
    ((runSqlmap ofile ex).status = "completed" ∨ (runSqlmap ofile ex).status = "error")
    ∧ (∀ e, ex = .error e → runSqlmap ofile ex
        = { status := "error", tool := some ("sqlmap"), error := some e, vulnerabilities := [] }) := by
  rcases ex with e | ⟨o, errs⟩
  · refine ⟨Or.inr rfl, ?_⟩
    intro e' he'; cases he'; rfl
  · refine ⟨Or.inl rfl, ?_⟩
    intro e' he'; cases he' 

/-- C3: every tool adapter is a total function into tagged results — its
status is `completed` or `error`, never a propagated exception; a Process
Runner rejection (`.error msg`) yields the tagged error result with an empty
vulnerability list and the triggering message; and a missing or malformed
output artifact yields an empty vulnerability list. -/
theorem adapters_never_throw (ofile : String) (ex : Except String (String × String))
    (fn : Option (Except Unit NiktoDoc)) (fh : Option (List (Except Unit HttpxData)))
    (fw : Option (Except Unit WapitiData)) (fu : Option (List (Except Unit NucleiData))) :
    (((runNikto ofile ex fn).status = "completed" ∨ (runNikto ofile ex fn).status = "error")
      ∧ (∀ e, ex = .error e → runNikto ofile ex fn
          = { status := "error", tool := some ("nikto"), error := some e, vulnerabilities := [] })
      ∧ ((fn = none ∨ ∃ u, fn = some (.error u)) → (runNikto ofile ex fn).vulnerabilities = []))
    ∧ (((runHttpx ofile ex fh).status = "completed" ∨ (runHttpx ofile ex fh).status = "error")
      ∧ (∀ e, ex = .error e → runHttpx ofile ex fh
          = { status := "error", tool := some ("httpx"), error := some e, vulnerabilities := [] })
      ∧ (fh = none → (runHttpx ofile ex fh).vulnerabilities = []))
    ∧ (((runWapiti ofile ex fw).status = "completed" ∨ (runWapiti ofile ex fw).status = "error")
      ∧ (∀ e, ex = .error e → runWapiti ofile ex fw
          = { status := "error", tool := some ("wapiti"), error := some e, vulnerabilities := [] })
      ∧ ((fw = none ∨ ∃ u, fw = some (.error u)) → (runWapiti ofile ex fw).vulnerabilities = []))
    ∧ (((runNuclei ofile ex fu).status = "completed" ∨ (runNuclei ofile ex fu).status = "error")
      ∧ (∀ e, ex = .error e → runNuclei ofile ex fu
          = { status := "error", tool := some ("nuclei"), error := some e, vulnerabilities := [] })
      ∧ (fu = none → (runNuclei ofile ex fu).vulnerabilities = []))
    ∧ (((runSqlmap ofile ex).status = "completed" ∨ (runSqlmap ofile ex).status = "error")
      ∧ ∀ e, ex = .error e → runSqlmap ofile ex
          = { status := "error", tool := some ("sqlmap"), error := some e, vulnerabilities := [] }) :=
  ⟨runNikto_tagged ofile ex fn, runHttpx_tagged ofile ex fh, runWapiti_tagged ofile ex fw,
   runNuclei_tagged ofile ex fu, runSqlmap_tagged ofile ex⟩

/-- C3 witness: a concrete spawn failure yields the tagged nikto error
result, and a concrete malformed Wapiti output file yields an empty
vulnerability list. -/
theorem adapters_never_throw_witness :
    runNikto ("nikto-1.xml") (.error ("spawn failure")) none
      = { status := "error", tool := some ("nikto"), error := some ("spawn failure"),
          vulnerabilities := [] }
    ∧ (runWapiti ("wapiti-1.json") (.ok (("out"), ("err"))) (some (.error ()))).vulnerabilities
        = [] :=
  ⟨(adapters_never_throw ("nikto-1.xml") (.error ("spawn failure")) none none none none).1.2.1
      ("spawn failure") rfl,
   (adapters_never_throw ("wapiti-1.json") (.ok (("out"), ("err"))) none none
      (some (.error ())) none).2.2.1.2.2 (Or.inr ⟨(), rfl⟩)⟩

/-- C5 (amended): `render` fails — throwing `Unsupported report format` and
producing no output — if and only if the lower-cased format is outside
\x7bjson, html, csv, xml, markdown, txt, text\x7d: the switch lower-cases its
input and also accepts the undocumented alias `txt`. -/
theorem render_format_validation (r : ScanResult) (opts : ReportOptions) (env : Env)
    (clk : Clock) (rand : Nat → String) (format : String) :
    ((generateSingleReport r opts env clk rand format).isOk = true
      ↔ toLowerJS format ∈ acceptedFormats)
    ∧ (toLowerJS format ∉ acceptedFormats →
        generateSingleReport r opts env clk rand format
          = .error ("Unsupported report format: " ++ format)) := by
  constructor
  · unfold generateSingleReport
    split <;> simp_all [acceptedFormats, Except.isOk, Except.toBool]
  · intro hmem
    unfold generateSingleReport
    split <;> simp_all [acceptedFormats]

/-- C5 counterexample: the format `"txt"` is not one of
\x7bjson, html, csv, xml, markdown, text\x7d, yet `render` succeeds on it —
the claimed "if and only if" fails. -/
theorem txt_format_accepted :
    (generateSingleReport rEmpty {} envId {} (fun _ => ("")) ("txt")).isOk = true
    ∧ ("txt" : String) ∉ (["json", "html", "csv", "xml", "markdown", "text"] : List String) :=
  ⟨rfl, by decide⟩

/-- C5 witness: `render(result, "pdf")` is rejected by the switch with the
`Unsupported report format` error and produces no output. -/
theorem render_format_validation_witness :
    toLowerJS ("pdf") ∉ acceptedFormats
    ∧ generateSingleReport rEmpty {} envId {} (fun _ => ("")) ("pdf")
        = .error ("Unsupported report format: pdf") :=
  ⟨by decide, (render_format_validation rEmpty {} envId {} (fun _ => ("")) ("pdf")).2 (by decide)⟩

/-- Counting distributes over append. -/
theorem countChar_append (c : Char) (a b : String) :
    countChar c (a ++ b) = countChar c a + countChar c b := by
  simp [countChar, String.data_append]

/-- Counting a separator-joined nonempty list. -/
theorem countChar_joinSep (c : Char) (sep : String) (a : String) (rest : List String) :
    countChar c (joinSep sep (a :: rest))
      = countChar c a + rest.length * countChar c sep + (rest.map (countChar c)).sum := by
  unfold joinSep
  induction rest generalizing a with
  | nil => simp
  | cons b bs ih =>
      simp only [List.foldl_cons]
      rw [ih (a ++ sep ++ b)]
      simp only [countChar_append, List.length_cons, List.map_cons, List.sum_cons]
      ring

/-- Joining newline-free parts with a newline-free separator stays
newline-free. -/
theorem countChar_joinSep_zero (c : Char) (sep : String) (hsep : countChar c sep = 0)
    (l : List String) (h : ∀ p ∈ l, countChar c p = 0) :
    countChar c (joinSep sep l) = 0 := by
  match l with
  | [] => simp [joinSep, countChar]
  | a :: rest =>
      rw [countChar_joinSep, hsep, h a (List.mem_cons_self a rest)]
      have : (rest.map (countChar c)).sum = 0 := by
        rw [List.sum_eq_zero]
        intro x hx
        rcases List.mem_map.mp hx with ⟨p, hp, rfl⟩
        exact h p (List.mem_cons_of_mem a hp)
      omega

/-- C7 (amended): the CSV report is the newline-join of a quoted header row
and one quoted row per vulnerability — so its row count is
`vulnerabilities.length + 1` whenever no field value contains a newline —
every field is wrapped in double quotes, but embedded double quotes are
doubled in the description field only (position 3 of each row); all other
fields keep their quotes raw. -/
theorem csv_structure (r : ScanResult)
    (h : ∀ v ∈ r.vulnerabilities, ∀ cell ∈ csvRow r v, countChar '\n' cell = 0) :
    rowCount (generateCsvReport r) = r.vulnerabilities.length + 1
    ∧ ∀ v, (csvRow r v).get? 3
        = some (replaceJS (jsOrS v.description ("")) ("\"") ("\"\"")) := by
  refine ⟨?_, fun v => rfl⟩
  unfold rowCount generateCsvReport
  rw [countChar_joinSep]
  have hhead : countChar '\n' (joinSep (",") (csvHeaders.map (fun h => "\"" ++ h ++ "\""))) = 0 := by
    decide
  have hlines : ∀ p ∈ (r.vulnerabilities.map (csvRow r)).map (fun row =>
      joinSep (",") (row.map (fun c => "\"" ++ c ++ "\""))), countChar '\n' p = 0 := by
    intro p hp
    rcases List.mem_map.mp hp with ⟨row, hrow, rfl⟩
    rcases List.mem_map.mp hrow with ⟨v, hv, rfl⟩
    apply countChar_joinSep_zero _ _ (by decide)
    intro q hq
    rcases List.mem_map.mp hq with ⟨cell, hcell, rfl⟩
    rw [countChar_append, countChar_append]
    rw [h v hv cell hcell]
    decide
  have hsum : (((r.vulnerabilities.map (csvRow r)).map (fun row =>
      joinSep (",") (row.map (fun c => "\"" ++ c ++ "\"")))).map (countChar '\n')).sum = 0 := by
    rw [List.sum_eq_zero]
    intro x hx
    rcases List.mem_map.mp hx with ⟨p, hp, rfl⟩
    exact hlines p hp
  rw [hhead, hsum]
  have hnl : countChar '\n' ("\n") = 1 := by decide
  simp [hnl]

/-- C7 counterexample: on a title containing an embedded double quote the
produced CSV differs from the spec-conforming one — the quote in the title
field is not doubled. -/
theorem csv_quote_not_doubled :
    generateCsvReport rCsv ≠ generateCsvReportSpec rCsv := by decide

/-- C7 witness: the row-count invariant at the concrete newline-free input. -/
theorem csv_structure_witness :
    rowCount (generateCsvReport rCsv) = rCsv.vulnerabilities.length + 1 :=
  (csv_structure rCsv (by decide)).1

/-- A string occurs in itself. -/
theorem contains_self (t : String) : ∃ p q, t = p ++ t ++ q :=
  ⟨"", "", by simp⟩

/-- Containment survives appending on the right. -/
theorem contains_left {s t : String} (h : ∃ p q, s = p ++ t ++ q) (b : String) :
    ∃ p q, s ++ b = p ++ t ++ q := by
  rcases h with ⟨p, q, rfl⟩
  exact ⟨p, q ++ b, by simp [String.append_assoc]⟩

/-- Containment survives appending on the left. -/
theorem contains_right {s t : String} (h : ∃ p q, s = p ++ t ++ q) (a : String) :
    ∃ p q, a ++ s = p ++ t ++ q := by
  rcases h with ⟨p, q, rfl⟩
  exact ⟨a ++ p, q, by simp [String.append_assoc]⟩

/-- `joinAll` distributes over list append. -/
theorem joinAll_append (l1 l2 : List String) :
    joinAll (l1 ++ l2) = joinAll l1 ++ joinAll l2 := by
  have key : ∀ (l : List String) (a b : String),
      l.foldl (fun acc x => acc ++ x) (a ++ b) = a ++ l.foldl (fun acc x => acc ++ x) b := by
    intro l
    induction l with
    | nil => intro a b; rfl
    | cons x xs ih =>
        intro a b
        simp only [List.foldl_cons]
        rw [String.append_assoc, ih]
  unfold joinAll
  rw [List.foldl_append]
  have h2 : ∀ (l : List String) (a : String),
      l.foldl (fun acc x => acc ++ x) a = a ++ l.foldl (fun acc x => acc ++ x) "" := by
    intro l a
    have := key l a ""
    rwa [String.append_empty] at this
  rw [h2 l2 (l1.foldl (fun acc x => acc ++ x) "")]

/-- `joinAll` peels a head element. -/
theorem joinAll_cons (x : String) (l : List String) :
    joinAll (x :: l) = x ++ joinAll l := by
  have h := joinAll_append [x] l
  simpa [joinAll] using h

/-- The verbatim-interpolation lemma for the HTML renderer: the (unescaped)
title of every vulnerability of the scan appears as a raw substring of the
rendered document. -/
theorem html_contains_title (r : ScanResult) (env : Env) (clk : Clock) (v : Vuln)
    (hv : v ∈ r.vulnerabilities) :
    ∃ pre post, generateHtmlReport r env clk
      = pre ++ jsOrS v.title ("Unknown Vulnerability") ++ post := by
  obtain ⟨l1, l2, hsplit⟩ := List.append_of_mem hv
  have hcard : ∃ p q, htmlVulnCard v
      = p ++ jsOrS v.title ("Unknown Vulnerability") ++ q := by
    unfold htmlVulnCard
    apply contains_left; apply contains_left; apply contains_left; apply contains_left
    apply contains_left; apply contains_left; apply contains_left; apply contains_left
    apply contains_left; apply contains_left; apply contains_left; apply contains_left
    apply contains_left; apply contains_left; apply contains_left
    apply contains_right
    exact contains_self _
  have hjoin : ∃ p q, joinAll (r.vulnerabilities.map htmlVulnCard)
      = p ++ jsOrS v.title ("Unknown Vulnerability") ++ q := by
    rw [hsplit, List.map_append, joinAll_append, List.map_cons, joinAll_cons]
    apply contains_right
    exact contains_left hcard _
  have hsec : ∃ p q, htmlVulnSection r
      = p ++ jsOrS v.title ("Unknown Vulnerability") ++ q := by
    unfold htmlVulnSection
    have hlen : r.vulnerabilities.length > 0 := by
      rw [hsplit]; simp
    rw [if_pos hlen]
    apply contains_left
    apply contains_right
    exact hjoin
  unfold generateHtmlReport htmlHead
  apply contains_left; apply contains_left; apply contains_left; apply contains_left
  apply contains_left
  apply contains_right
  exact hsec

/-- C6: the HTML renderer escapes nothing — a vulnerability title containing
markup is interpolated verbatim into the document, so tool- or user-supplied
strings can inject markup (the XML renderer escapes, the HTML renderer does
not). -/
theorem html_title_unescaped :
    ∃ pre post, generateHtmlReport rXss envId {}
      = pre ++ ("<script>alert(1)</script>") ++ post := by
  have h := html_contains_title rXss envId {} _ (List.mem_singleton.mpr rfl)
  simpa [jsOrS] using h

/-- A truthy optional string ignores its `||` default. -/
theorem jsOrS_truthy (o : Option String) (h : truthyS o = true) (d₁ d₂ : String) :
    jsOrS o d₁ = jsOrS o d₂ := by
  match o with
  | none => simp [truthyS] at h
  | some s =>
      simp only [truthyS, Bool.not_eq_true'] at h
      have hs : s ≠ "" := by simpa using h
      simp [jsOrS, hs]

/-- With a present id the JSON vulnerability entry does not depend on the
random fallback. -/
theorem vulnJson_rand_indep (r : ScanResult) (rand₁ rand₂ : Nat → String) (i : Nat)
    (v : Vuln) (h : truthyS v.id = true) :
    vulnJson r rand₁ i v = vulnJson r rand₂ i v := by
  unfold vulnJson
  rw [jsOrS_truthy v.id h ("vuln-" ++ rand₁ i) ("vuln-" ++ rand₂ i)]

/-- With all ids present the JSON vulnerabilities array does not depend on
the random fallback. -/
theorem vulnsJson_rand_indep (r : ScanResult) (rand₁ rand₂ : Nat → String)
    (l : List Vuln) (n : Nat) (h : ∀ v ∈ l, truthyS v.id = true) :
    (List.enumFrom n l).map (fun p => vulnJson r rand₁ p.1 p.2)
      = (List.enumFrom n l).map (fun p => vulnJson r rand₂ p.1 p.2) := by
  induction l generalizing n with
  | nil => rfl
  | cons v vs ih =>
      simp only [List.enumFrom_cons, List.map_cons]
      rw [vulnJson_rand_indep r rand₁ rand₂ n v (h v (List.mem_cons_self v vs)),
        ih (n + 1) (fun w hw => h w (List.mem_cons_of_mem v hw))]

/-- The JSON report of one render equals that of another render with only the
`metadata.report_generated_at` field replaced, whenever every vulnerability
carries an id. -/
theorem reportJson_ts (r : ScanResult) (b : Bool) (clk₁ clk₂ : Clock)
    (rand₁ rand₂ : Nat → String) (hids : ∀ v ∈ r.vulnerabilities, truthyS v.id = true) :
    reportJson r b clk₁ rand₁ = setReportTs (reportJson r b clk₂ rand₂) clk₁.iso := by
  have hvulns := vulnsJson_rand_indep r rand₁ rand₂ r.vulnerabilities 0 hids
  unfold reportJson setReportTs setMetaTs metadataJson
  simp only [List.map_cons, List.map_nil, List.enum]
  simp [hvulns]

/-- Splitting the last two elements off a separator join. -/
theorem joinSep_append_two (sep x y : String) (L : List String) (hL : L ≠ []) :
    joinSep sep (L ++ [x, y]) = joinSep sep L ++ sep ++ x ++ sep ++ y := by
  match L with
  | [] => exact absurd rfl hL
  | a :: t =>
      show joinSep sep (a :: (t ++ [x, y])) = _
      simp only [joinSep]
      rw [List.foldl_append]
      simp only [List.foldl_cons, List.foldl_nil]

/-- The text report always has lines before the footer. -/
theorem textLinesMain_ne_nil (r : ScanResult) (detailed co : Bool) (env : Env) :
    textLinesMain r detailed co env ≠ [] := by
  unfold textLinesMain
  simp

/-- C9 (amended): rendering the same `ScanResult` twice differs only in the
generation timestamp, for every supported format, provided every
vulnerability carries an id — the JSON report object of one render is the
other's with only `metadata.report_generated_at` replaced, and each of the
other formats factors as a fixed prefix and suffix around the render-time
timestamp (the CSV format carries no timestamp at all and is identical). -/
theorem render_timestamp_only (r : ScanResult) (env : Env) (clk₁ clk₂ : Clock)
    (rand₁ rand₂ : Nat → String)
    (hids : ∀ v ∈ r.vulnerabilities, truthyS v.id = true) :
    (reportJson r false clk₁ rand₁ = setReportTs (reportJson r false clk₂ rand₂) clk₁.iso)
    ∧ (∃ pre post, generateHtmlReport r env clk₁ = pre ++ clk₁.locale ++ post
        ∧ generateHtmlReport r env clk₂ = pre ++ clk₂.locale ++ post)
    ∧ (generateSingleReport r {} env clk₁ rand₁ ("csv")
        = generateSingleReport r {} env clk₂ rand₂ ("csv"))
    ∧ (∃ pre post, generateXmlReport r clk₁ = pre ++ escapeXml clk₁.iso ++ post
        ∧ generateXmlReport r clk₂ = pre ++ escapeXml clk₂.iso ++ post)
    ∧ (∃ pre post, generateMarkdownReport r env clk₁ = pre ++ clk₁.locale ++ post
        ∧ generateMarkdownReport r env clk₂ = pre ++ clk₂.locale ++ post)
    ∧ (∃ pre post, generateTextReport r false true env clk₁ = pre ++ clk₁.locale ++ post
        ∧ generateTextReport r false true env clk₂ = pre ++ clk₂.locale ++ post) := by
  refine ⟨reportJson_ts r false clk₁ clk₂ rand₁ rand₂ hids, ?_, rfl, ?_, ?_, ?_⟩
  · exact ⟨htmlHead r env, htmlSeg13 ++ r.id ++ htmlSeg14,
      by simp only [generateHtmlReport, String.append_assoc],
      by simp only [generateHtmlReport, String.append_assoc]⟩
  · exact ⟨xmlHead r, xmlTail r, rfl, rfl⟩
  · exact ⟨mdHead r env, "*\n", rfl, rfl⟩
  · refine ⟨joinSep ("\n") (textLinesMain r false true env) ++ "\n"
        ++ "Report generated by @profullstack/scanner v2.0 on ",
      "\n" ++ colorize true (repeatChar '=' 80) ("bold"), ?_, ?_⟩
    · unfold generateTextReport
      rw [joinSep_append_two _ _ _ _ (textLinesMain_ne_nil r false true env)]
      simp only [String.append_assoc]
    · unfold generateTextReport
      rw [joinSep_append_two _ _ _ _ (textLinesMain_ne_nil r false true env)]
      simp only [String.append_assoc]

set_option maxRecDepth 40000 in
/-- C9 counterexample: with an id-less vulnerability, two JSON renders at the
same instant — differing only in the `Math.random` draw — produce different
strings, so repeated rendering is not identical apart from the timestamp
field. -/
theorem json_render_not_deterministic :
    generateJsonReport rJson false {} (fun _ => ("a"))
      ≠ generateJsonReport rJson false {} (fun _ => ("bb")) := by decide

/-- C9 witness: the timestamp-only factorization at a concrete scan result
whose vulnerabilities all carry ids. -/
theorem render_timestamp_only_witness :
    (∀ v ∈ rWithId.vulnerabilities, truthyS v.id = true)
    ∧ ((reportJson rWithId false { iso := "T1" } (fun _ => ("a"))
          = setReportTs (reportJson rWithId false { iso := "T2" } (fun _ => ("b"))) ("T1"))
      ∧ (∃ pre post, generateHtmlReport rWithId envId { locale := "L1" }
            = pre ++ ("L1") ++ post
          ∧ generateHtmlReport rWithId envId { locale := "L2" } = pre ++ ("L2") ++ post)
      ∧ (generateSingleReport rWithId {} envId { iso := "T1", locale := "L1" } (fun _ => ("a")) ("csv")
          = generateSingleReport rWithId {} envId { iso := "T2", locale := "L2" } (fun _ => ("b")) ("csv"))
      ∧ (∃ pre post, generateXmlReport rWithId { iso := "T1" }
            = pre ++ escapeXml ("T1") ++ post
          ∧ generateXmlReport rWithId { iso := "T2" } = pre ++ escapeXml ("T2") ++ post)
      ∧ (∃ pre post, generateMarkdownReport rWithId envId { locale := "L1" }
            = pre ++ ("L1") ++ post
          ∧ generateMarkdownReport rWithId envId { locale := "L2" } = pre ++ ("L2") ++ post)
      ∧ (∃ pre post, generateTextReport rWithId false true envId { locale := "L1" }
            = pre ++ ("L1") ++ post
          ∧ generateTextReport rWithId false true envId { locale := "L2" }
              = pre ++ ("L2") ++ post)) :=
  ⟨by decide,
   render_timestamp_only rWithId envId { iso := "T1", locale := "L1" }
     { iso := "T2", locale := "L2" } (fun _ => ("a")) (fun _ => ("b")) (by decide)⟩

end Scanner
